import Mathlib

set_option autoImplicit false

/-!
Verification of the batch media-compression pipeline (file classification,
tool location, transform staging, PDF size guard, batch aggregation and
summary formatting).  The TypeScript sources are shallowly embedded:
filesystem and external-encoder effects are threaded explicitly through a
state record, and external processes are oracles supplied by an
environment record.
-/

namespace Compressor

/-! ## Strings and paths

Node's `path` module (posix-flavoured) modelled on `List Char`, with
`String` wrappers.  `path.join` is modelled without `..`-normalisation
(the embedded code only ever joins plain component names).
-/

/-- List-level test that `pre` is an initial segment of `s`. -/
def strStartsCl : List Char → List Char → Bool
  | [], _ => true
  | _ :: _, [] => false
  | a :: as, b :: bs => a == b && strStartsCl as bs

/-- List-level test that `suf` is a final segment of `s`. -/
def strEndsCl (suf s : List Char) : Bool :=
  strStartsCl suf.reverse s.reverse

/-- Part of a path after the last `/` (node `path.basename(p)`). -/
def fileNameCl (l : List Char) : List Char :=
  (l.reverse.takeWhile (fun c => c ≠ '/')).reverse

/-- Part of a path before the last `/` (node `path.dirname`): `"."` when
there is no slash, `"/"` when the only slash is leading. -/
def dirNameCl (l : List Char) : List Char :=
  match l.reverse.dropWhile (fun c => c ≠ '/') with
  | [] => ['.']
  | _ :: rest => if rest = [] then ['/'] else rest.reverse

/-- Node `path.join(d, f)` for a directory and one component. -/
def joinCl (d f : List Char) : List Char :=
  if d = [] then f
  else if d = ['.'] then f
  else d ++ '/' :: f

/-- Helper for `extCl`: applied to a reversed name, splits at the first `.`
(last `.` of the name), returning the reversed extension body and the
reversed stem. -/
def revExtSplit : List Char → Option (List Char × List Char)
  | [] => none
  | c :: r =>
    if c = '.' then some ([], r)
    else
      match revExtSplit r with
      | some (a, b) => some (c :: a, b)
      | none => none

/-- Node `path.extname` on a file name (no directory part): the segment
from the last `.`, or `""` when there is no dot or the only dot leads. -/
def extCl (name : List Char) : List Char :=
  match revExtSplit name.reverse with
  | some (a, b) => if b = [] then [] else '.' :: a.reverse
  | none => []

/-- Node `path.basename(p, ext)` on a file name: strips `ext` when the name
ends with it.  (Node keeps the name when it equals the extension; that case
is unreachable here because the extension is always computed by `extCl`
from the same name, which yields `""` for a bare leading-dot name.) -/
def baseStripCl (name ext : List Char) : List Char :=
  if ext.isEmpty then name
  else if strEndsCl ext name then name.take (name.length - ext.length)
  else name

/-- Lower-casing of a character list (JS `toLowerCase`). -/
def lowerCl (l : List Char) : List Char :=
  l.map Char.toLower

/-- Whitespace trim at both ends (JS `String.prototype.trim`, modelled
with `Char.isWhitespace`). -/
def trimCl (l : List Char) : List Char :=
  ((l.dropWhile Char.isWhitespace).reverse.dropWhile Char.isWhitespace).reverse

/-- Substring test (JS `String.prototype.includes`). -/
def strIncludesCl (sub : List Char) : List Char → Bool
  | [] => strStartsCl sub []
  | c :: t => strStartsCl sub (c :: t) || strIncludesCl sub t

/-- Node `path.basename(p)`. -/
def pathFileName (p : String) : String := ⟨fileNameCl p.data⟩

/-- Node `path.dirname(p)`. -/
def pathDirname (p : String) : String := ⟨dirNameCl p.data⟩

/-- Node `path.join(d, f)`. -/
def pathJoin (d f : String) : String := ⟨joinCl d.data f.data⟩

/-- Node `path.extname(p)` (works on the basename part). -/
def pathExtname (p : String) : String := ⟨extCl (fileNameCl p.data)⟩

/-- Node `path.basename(p, ext)`. -/
def pathBaseStrip (p : String) (ext : String) : String :=
  ⟨baseStripCl (fileNameCl p.data) ext.data⟩

/-- JS `String.prototype.toLowerCase`. -/
def strToLower (s : String) : String := ⟨lowerCl s.data⟩

/-- JS `String.prototype.trim`. -/
def strTrim (s : String) : String := ⟨trimCl s.data⟩

/-- JS `pre` is an initial segment of `s`. -/
def strStarts (pre s : String) : Bool := strStartsCl pre.data s.data

/-- JS `String.prototype.includes`. -/
def strIncludes (s sub : String) : Bool := strIncludesCl sub.data s.data

theorem string_data_append (a b : String) : (a ++ b).data = a.data ++ b.data := by
  cases a; cases b; rfl

theorem strStartsCl_exists {a b : List Char} (h : strStartsCl a b = true) :
    ∃ t, b = a ++ t := by
  induction a generalizing b with
  | nil => exact ⟨b, rfl⟩
  | cons x xs ih =>
    cases b with
    | nil => simp [strStartsCl] at h
    | cons y ys =>
      simp only [strStartsCl, Bool.and_eq_true, beq_iff_eq] at h
      obtain ⟨t, ht⟩ := ih h.2
      exact ⟨t, by simp [h.1, ht]⟩

theorem strEndsCl_exists {ext name : List Char} (h : strEndsCl ext name = true) :
    ∃ s, name = s ++ ext := by
  obtain ⟨t, ht⟩ := strStartsCl_exists h
  refine ⟨t.reverse, ?_⟩
  have := congrArg List.reverse ht
  simpa using this

theorem revExtSplit_sound {r a b : List Char} (h : revExtSplit r = some (a, b)) :
    r = a ++ '.' :: b ∧ '.' ∉ a := by
  induction r generalizing a b with
  | nil => simp [revExtSplit] at h
  | cons c t ih =>
    by_cases hc : c = '.'
    · simp only [revExtSplit, if_pos hc] at h
      cases h
      subst hc
      simp
    · simp only [revExtSplit, if_neg hc] at h
      cases ht : revExtSplit t with
      | none => rw [ht] at h; cases h
      | some p =>
        obtain ⟨a', b'⟩ := p
        rw [ht] at h
        cases h
        obtain ⟨h1, h2⟩ := ih ht
        constructor
        · simp [h1]
        · simp only [List.mem_cons, not_or]
          exact ⟨fun hh => hc hh.symm, h2⟩

/-- The extension returned by `extCl` is empty or a dot followed by a
dot-free tail. -/
theorem extCl_shape (name : List Char) :
    extCl name = [] ∨ ∃ t, extCl name = '.' :: t ∧ '.' ∉ t := by
  unfold extCl
  cases h : revExtSplit name.reverse with
  | none => exact Or.inl rfl
  | some p =>
    obtain ⟨a, b⟩ := p
    by_cases hb : b = []
    · simp [hb]
    · right
      refine ⟨a.reverse, by simp [hb], ?_⟩
      have := (revExtSplit_sound h).2
      simpa using this

theorem char_toLower_eq_dot {c : Char} (h : c.toLower = '.') : c = '.' := by
  have h' : (if c.toNat ≥ 65 ∧ c.toNat ≤ 90 then Char.ofNat (c.toNat + 32) else c) = '.' := h
  by_cases hc : c.toNat ≥ 65 ∧ c.toNat ≤ 90
  · exfalso
    rw [if_pos hc] at h'
    obtain ⟨h1, h2⟩ := hc
    have hval : (c.toNat + 32).isValidChar := Or.inl (by omega)
    rw [Char.ofNat, dif_pos hval] at h'
    have h46 : c.toNat + 32 = 46 := congrArg Char.toNat h'
    omega
  · rwa [if_neg hc] at h'

theorem dot_not_mem_lowerCl {t : List Char} (h : '.' ∉ t) : '.' ∉ lowerCl t := by
  intro hmem
  obtain ⟨c, hc, hlow⟩ := List.mem_map.mp hmem
  exact h (char_toLower_eq_dot hlow ▸ hc)

theorem takeWhile_all {p : Char → Bool} {l : List Char} (h : ∀ c ∈ l, p c = true) :
    l.takeWhile p = l := by
  induction l with
  | nil => rfl
  | cons c t ih =>
    have hc := h c (List.mem_cons_self c t)
    simp [List.takeWhile_cons, hc, ih fun x hx => h x (List.mem_cons_of_mem c hx)]

theorem takeWhile_append_stop {p : Char → Bool} {xs ys : List Char} {c : Char}
    (hall : ∀ a ∈ xs, p a = true) (hc : p c = false) :
    (xs ++ c :: ys).takeWhile p = xs := by
  induction xs with
  | nil => simp [List.takeWhile_cons, hc]
  | cons x t ih =>
    have hx := hall x (List.mem_cons_self x t)
    simp [List.takeWhile_cons, hx, ih fun a ha => hall a (List.mem_cons_of_mem x ha)]

theorem dropWhile_append_stop {p : Char → Bool} {xs ys : List Char} {c : Char}
    (hall : ∀ a ∈ xs, p a = true) (hc : p c = false) :
    (xs ++ c :: ys).dropWhile p = c :: ys := by
  induction xs with
  | nil => simp [List.dropWhile_cons, hc]
  | cons x t ih =>
    have hx := hall x (List.mem_cons_self x t)
    simp [List.dropWhile_cons, hx, ih fun a ha => hall a (List.mem_cons_of_mem x ha)]

theorem fileNameCl_no_slash (l : List Char) : '/' ∉ fileNameCl l := by
  intro h
  unfold fileNameCl at h
  rw [List.mem_reverse] at h
  have := List.mem_takeWhile_imp h
  simp at this

theorem fileNameCl_of_no_slash {l : List Char} (h : '/' ∉ l) : fileNameCl l = l := by
  unfold fileNameCl
  rw [takeWhile_all, List.reverse_reverse]
  intro c hc
  exact decide_eq_true fun he => h (he ▸ List.mem_reverse.mp hc)

theorem fileNameCl_append_slash {d f : List Char} (hf : '/' ∉ f) :
    fileNameCl (d ++ '/' :: f) = f := by
  unfold fileNameCl
  have hsplit : (d ++ '/' :: f).reverse = f.reverse ++ '/' :: d.reverse := by
    simp
  rw [hsplit, takeWhile_append_stop, List.reverse_reverse]
  · intro a ha
    exact decide_eq_true fun he => hf (he ▸ List.mem_reverse.mp ha)
  · simp

theorem fileNameCl_join {d f : List Char} (hf : '/' ∉ f) :
    fileNameCl (joinCl d f) = f := by
  unfold joinCl
  split
  · exact fileNameCl_of_no_slash hf
  · split
    · exact fileNameCl_of_no_slash hf
    · exact fileNameCl_append_slash hf

theorem dirNameCl_append_slash {d f : List Char} (hf : '/' ∉ f) (hd : d ≠ []) :
    dirNameCl (d ++ '/' :: f) = d := by
  have h1 : (d ++ '/' :: f).reverse.dropWhile (fun c => c ≠ '/') = '/' :: d.reverse := by
    have hsplit : (d ++ '/' :: f).reverse = f.reverse ++ '/' :: d.reverse := by
      simp
    rw [hsplit, dropWhile_append_stop]
    · intro a ha
      exact decide_eq_true fun he => hf (he ▸ List.mem_reverse.mp ha)
    · simp
  unfold dirNameCl
  rw [h1]
  simp [hd]

theorem baseStripCl_subset {name ext : List Char} : baseStripCl name ext ⊆ name := by
  unfold baseStripCl
  split
  · exact fun _ h => h
  · split
    · exact List.take_subset _ _
    · exact fun _ h => h

/-- Core collision-freedom fact: appending a marker suffix of the form
`.xxx.yyy` (a dot-led suffix containing a second dot) to the
extension-stripped stem of a file name can never reproduce the file name,
because a real extension contains no dot beyond its leading one. -/
theorem baseStrip_min_ne {name mw : List Char} (t : List Char)
    (hmw : mw = '.' :: t) (hdot : '.' ∈ t) :
    baseStripCl name (lowerCl (extCl name)) ++ mw ≠ name := by
  intro heq
  rcases extCl_shape name with hext | ⟨e, hext, hne⟩
  · rw [hext] at heq
    simp only [lowerCl, List.map_nil, baseStripCl, List.isEmpty_nil, if_true] at heq
    have := congrArg List.length heq
    simp [hmw] at this
  · rw [hext] at heq
    have hlow : lowerCl ('.' :: e) = '.' :: lowerCl e := by
      simp only [lowerCl, List.map_cons]
      norm_num [show '.'.toLower = '.' from by decide]
    rw [hlow] at heq
    unfold baseStripCl at heq
    rw [if_neg (by simp)] at heq
    by_cases hE : strEndsCl ('.' :: lowerCl e) name
    · rw [if_pos hE] at heq
      obtain ⟨s, hs⟩ := strEndsCl_exists hE
      rw [hs] at heq
      have hlen : (s ++ '.' :: lowerCl e).length - ('.' :: lowerCl e).length = s.length := by
        simp
      rw [hlen, List.take_left] at heq
      have hmweq : mw = '.' :: lowerCl e := List.append_cancel_left heq
      rw [hmw] at hmweq
      have : t = lowerCl e := by
        injection hmweq
      exact dot_not_mem_lowerCl hne (this ▸ hdot)
    · rw [if_neg hE] at heq
      have := congrArg List.length heq
      simp [hmw] at this

/-- Output-path collision freedom at the `String` level: the sibling path
`dir(p)/<stem>.<marker suffix>` built the way the transforms build their
output paths is always a different path from `p` itself. -/
theorem minOut_ne (p mw : String) (t : List Char) (hmw : mw.data = '.' :: t)
    (hdot : '.' ∈ t) (hns : '/' ∉ mw.data) :
    pathJoin (pathDirname p) (pathBaseStrip p (strToLower (pathExtname p)) ++ mw) ≠ p := by
  intro heq
  have hdata := congrArg String.data heq
  have hx : (pathBaseStrip p (strToLower (pathExtname p)) ++ mw).data
      = baseStripCl (fileNameCl p.data) (lowerCl (extCl (fileNameCl p.data))) ++ mw.data := by
    rw [string_data_append]
    rfl
  have hjoin : (pathJoin (pathDirname p) (pathBaseStrip p (strToLower (pathExtname p)) ++ mw)).data
      = joinCl (dirNameCl p.data)
          (baseStripCl (fileNameCl p.data) (lowerCl (extCl (fileNameCl p.data))) ++ mw.data) := by
    show joinCl (dirNameCl p.data) (pathBaseStrip p (strToLower (pathExtname p)) ++ mw).data
        = _
    rw [hx]
  rw [hjoin] at hdata
  have hnoslash : '/' ∉ baseStripCl (fileNameCl p.data) (lowerCl (extCl (fileNameCl p.data))) ++ mw.data := by
    intro hmem
    rcases List.mem_append.mp hmem with hmem | hmem
    · exact fileNameCl_no_slash p.data (baseStripCl_subset hmem)
    · exact hns hmem
  have hfn := congrArg fileNameCl hdata
  rw [fileNameCl_join hnoslash] at hfn
  exact baseStrip_min_ne t hmw hdot hfn

/-! ## Filesystem, environment and program state

Files are a path-keyed association list of sizes; `insert` shadows by
consing and `unlink` removes every entry for the key, so lookup sees
overwrite semantics.  Directories are tracked only for `existsSync`/
`mkdirSync` of output folders.  External effects (content sniffing,
subprocess execution, OS-level rename outcomes, module resolution) are
oracles carried by `Env`.
-/

structure FS where
  files : List (String × Nat)
  dirs : List String

def FS.statSize (fs : FS) (p : String) : Option Nat :=
  (fs.files.find? (fun e => e.1 == p)).map (·.2)

def FS.existsSync (fs : FS) (p : String) : Bool :=
  (fs.statSize p).isSome || fs.dirs.contains p

def FS.insertFile (fs : FS) (p : String) (n : Nat) : FS :=
  { fs with files := (p, n) :: fs.files }

def FS.unlinkSync (fs : FS) (p : String) : FS :=
  { fs with files := fs.files.filter (fun e => !(e.1 == p)) }

def FS.mkdirSync (fs : FS) (p : String) : FS :=
  { fs with dirs := p :: fs.dirs }

def FS.renameFile (fs : FS) (src dst : String) : FS :=
  match fs.statSize src with
  | some n => (fs.unlinkSync src).insertFile dst n
  | none => fs

/-- Outcome of `fileTypeFromFile`: a rejected promise, an undefined result,
or a detected MIME type. -/
inductive SniffRes where
  | throws (msg : String)
  | undet
  | mime (m : String)

/-- Outcome of `execFileAsync`: a rejected promise, or a completed process
that either created the expected output file (with the given size) or did
not. -/
inductive ExecOutcome where
  | throws (msg : String)
  | ran (output : Option Nat) (stderr : String)

structure Env where
  platform : String
  assetsPath : String
  cwd : String
  dirnameVar : String
  readdir : String → List String
  requireFfmpegStatic : Option String
  resolvePkgJson : Option String
  resolveDirect : Option String
  sniff : String → SniffRes
  run : String → List String → FS → ExecOutcome
  outputFolderName : Option String
  pdfQuality : Option String
  renameOk : String → String → Bool
  renameErrMsg : String

/-- Mutable module state: the filesystem plus the two memoised tool paths
(`cachedGhostscriptPath`, `cachedFfmpegPath`). -/
structure PState where
  fs : FS
  gsCache : Option String
  ffCache : Option String

structure CompressionResult where
  success : Bool
  outputPath : Option String := none
  originalSize : Option Nat := none
  compressedSize : Option Nat := none
  error : Option String := none
deriving DecidableEq

structure PDFCompressionResult where
  success : Bool
  outputPath : Option String := none
  originalSize : Option Nat := none
  compressedSize : Option Nat := none
  error : Option String := none
deriving DecidableEq

structure ResizePreset where
  name : String
  description : String
  maxWidth : Option Nat := none
  maxHeight : Option Nat := none
  width : Option Nat := none
  height : Option Nat := none
deriving DecidableEq

/-- Processing options (the unused `outputFormat`/`compressionMode` fields
of `types.ts` are omitted: no embedded code path reads them). -/
structure ProcessingOptions where
  compress : Bool := false
  resize : Bool := false
  resizePreset : Option ResizePreset := none
deriving DecidableEq

structure ProcessingResult where
  success : Bool
  outputPath : Option String := none
  originalSize : Option Nat := none
  processedSize : Option Nat := none
  error : Option String := none
  fileName : Option String := none
  fileType : Option String := none
deriving DecidableEq

structure BatchResult where
  totalFiles : Nat
  successCount : Nat
  failureCount : Nat
  totalOriginalSize : Nat
  totalProcessedSize : Nat
  results : List ProcessingResult
  errors : List (String × String)
deriving DecidableEq

/-- JS truthiness of an optional numeric field (`undefined` and `0` falsy). -/
def truthyNat : Option Nat → Bool
  | some n => n != 0
  | none => false

/-- JS truthiness of an optional string (`undefined` and `""` falsy). -/
def truthyStr : Option String → Bool
  | some s => s != ""
  | none => false

/-- JS `a || b` for an optional string with a default. -/
def jsOrStr (a : Option String) (b : String) : String :=
  match a with
  | some s => if s = "" then b else s
  | none => b

/-! ## Tool Locator (`getGhostscriptPath`, `getFfmpegPath`) -/

def gsStaticWindowsPaths : List String := [
  "C:\\Program Files\\gs\\gs10.04.0\\bin\\gswin64c.exe",
  "C:\\Program Files\\gs\\gs10.03.1\\bin\\gswin64c.exe",
  "C:\\Program Files\\gs\\gs10.03.0\\bin\\gswin64c.exe",
  "C:\\Program Files\\gs\\gs10.02.1\\bin\\gswin64c.exe",
  "C:\\Program Files\\gs\\gs10.02.0\\bin\\gswin64c.exe",
  "C:\\Program Files\\gs\\gs10.01.2\\bin\\gswin64c.exe",
  "C:\\Program Files (x86)\\gs\\gs10.04.0\\bin\\gswin64c.exe",
  "C:\\Program Files (x86)\\gs\\gs10.03.1\\bin\\gswin64c.exe",
  "C:\\Program Files (x86)\\gs\\gs10.03.0\\bin\\gswin64c.exe"]

/-- Version-directory scan under the two Program Files roots; each found
path is unshifted onto the front of the candidate array. -/
def gsScannedPaths (env : Env) (fs : FS) : List String :=
  (["C:\\Program Files\\gs", "C:\\Program Files (x86)\\gs"]).foldl
    (fun acc baseDir =>
      if fs.existsSync baseDir then
        (env.readdir baseDir).foldl
          (fun acc2 version =>
            let gsPath := pathJoin (pathJoin (pathJoin baseDir version) "bin") "gswin64c.exe"
            if fs.existsSync gsPath then gsPath :: acc2 else acc2)
          acc
      else acc)
    []

def gsUnixPaths : List String :=
  ["/opt/homebrew/bin/gs", "/usr/local/bin/gs", "/usr/bin/gs", "/opt/local/bin/gs"]

/-- Priority-ordered Ghostscript search (the body of `getGhostscriptPath`
below its cache check). -/
def getGhostscriptSearch (env : Env) (fs : FS) : String :=
  let isWindows := env.platform == "win32"
  let exeName := if isWindows then "gswin64c.exe" else "gs"
  let found :=
    if isWindows then
      (gsScannedPaths env fs ++ gsStaticWindowsPaths).find? (fun p => fs.existsSync p)
    else
      gsUnixPaths.find? (fun p => fs.existsSync p)
  match found with
  | some p => p
  | none =>
    let assetPath := pathJoin env.assetsPath exeName
    if fs.existsSync assetPath then assetPath else exeName

/-- Memoising `getGhostscriptPath`: takes and returns the module-level
cache; a cached path is revalidated with `existsSync` before reuse. -/
def getGhostscriptPath (env : Env) (fs : FS) (cache : Option String) : String × Option String :=
  match cache with
  | some p =>
    if fs.existsSync p then (p, some p)
    else
      let r := getGhostscriptSearch env fs
      (r, some r)
  | none =>
    let r := getGhostscriptSearch env fs
    (r, some r)

/-- Upward `node_modules` walk (`for i in 0..4`, breaking when the parent
directory equals the current directory). -/
def ffmpegUpwardPaths (exeExt : String) : Nat → String → List String
  | 0, _ => []
  | fuel + 1, currentDir =>
    let nodeModulesPath :=
      pathJoin (pathJoin (pathJoin currentDir "node_modules") "ffmpeg-static") ("ffmpeg" ++ exeExt)
    let parentDir := pathDirname currentDir
    if parentDir == currentDir then [nodeModulesPath]
    else nodeModulesPath :: ffmpegUpwardPaths exeExt fuel parentDir

/-- Priority-2 search-path array of `getFfmpegPath`, including the
`require.resolve` results unshifted onto the front. -/
def ffmpegSearchPaths (env : Env) (fs : FS) : List String :=
  let exeExt := if env.platform == "win32" then ".exe" else ""
  let extensionDir := if env.assetsPath ≠ "" then pathDirname env.assetsPath else env.dirnameVar
  let base : List String := [
    pathJoin (pathJoin (pathJoin env.cwd "node_modules") "ffmpeg-static") ("ffmpeg" ++ exeExt),
    pathJoin (pathJoin (pathJoin (pathJoin (pathJoin env.dirnameVar "..") "..") "node_modules") "ffmpeg-static") ("ffmpeg" ++ exeExt),
    pathJoin (pathJoin (pathJoin env.dirnameVar "node_modules") "ffmpeg-static") ("ffmpeg" ++ exeExt),
    pathJoin (pathJoin (pathJoin extensionDir "node_modules") "ffmpeg-static") ("ffmpeg" ++ exeExt)]
  let searchPaths := base ++ ffmpegUpwardPaths exeExt 5 env.dirnameVar
  match env.resolvePkgJson with
  | some basePath =>
    let fp := pathJoin (pathDirname basePath) ("ffmpeg" ++ exeExt)
    if fs.existsSync fp then fp :: searchPaths else searchPaths
  | none =>
    match env.resolveDirect with
    | some resolved => if fs.existsSync resolved then resolved :: searchPaths else searchPaths
    | none => searchPaths

def ffmpegSystemPaths : List String :=
  ["/opt/homebrew/bin/ffmpeg", "/usr/local/bin/ffmpeg", "/usr/bin/ffmpeg"]

/-- Priority-ordered ffmpeg search (the body of `getFfmpegPath` below its
cache check): `ffmpeg-static` module value, `node_modules` search paths,
bundled asset, Darwin system locations, bare `ffmpeg`. -/
def getFfmpegSearch (env : Env) (fs : FS) : String :=
  let exeExt := if env.platform == "win32" then ".exe" else ""
  let found1 : Option String :=
    match env.requireFfmpegStatic with
    | some p => if (p != "") && fs.existsSync p then some p else none
    | none => none
  match found1 with
  | some p => p
  | none =>
    match (ffmpegSearchPaths env fs).find? (fun p => fs.existsSync p) with
    | some p => p
    | none =>
      let assetPath := pathJoin env.assetsPath ("ffmpeg" ++ exeExt)
      if fs.existsSync assetPath then assetPath
      else if env.platform == "darwin" then
        match ffmpegSystemPaths.find? (fun p => fs.existsSync p) with
        | some p => p
        | none => "ffmpeg"
      else "ffmpeg"

/-- Memoising `getFfmpegPath`: takes and returns the module-level cache; a
cached path is revalidated with `existsSync` before reuse. -/
def getFfmpegPath (env : Env) (fs : FS) (cache : Option String) : String × Option String :=
  match cache with
  | some p =>
    if fs.existsSync p then (p, some p)
    else
      let r := getFfmpegSearch env fs
      (r, some r)
  | none =>
    let r := getFfmpegSearch env fs
    (r, some r)
theorem find?_filter_ne_none (l : List (String × Nat)) (p : String) :
    (l.filter (fun e => !(e.1 == p))).find? (fun e => e.1 == p) = none := by
  induction l with
  | nil => rfl
  | cons e t ih =>
    by_cases he : e.1 = p
    · simp [List.filter_cons, he, ih]
    · simp [List.filter_cons, he, ih, List.find?_cons]

theorem find?_filter_ne_other (l : List (String × Nat)) {p q : String} (h : q ≠ p) :
    (l.filter (fun e => !(e.1 == p))).find? (fun e => e.1 == q)
      = l.find? (fun e => e.1 == q) := by
  induction l with
  | nil => rfl
  | cons e t ih =>
    by_cases he : e.1 = p
    · have hfilter : (e :: t).filter (fun e => !(e.1 == p)) = t.filter (fun e => !(e.1 == p)) := by
        simp [List.filter_cons, he]
      have hq : (e.1 == q) = false := by
        rw [he]
        exact beq_eq_false_iff_ne.mpr fun hh => h hh.symm
      rw [hfilter, ih]
      simp only [List.find?_cons, hq]
    · have hfilter : (e :: t).filter (fun e => !(e.1 == p)) = e :: t.filter (fun e => !(e.1 == p)) := by
        simp [List.filter_cons, he]
      rw [hfilter]
      simp only [List.find?_cons]
      cases hq : (e.1 == q) with
      | true => rfl
      | false => exact ih

theorem FS.statSize_insertFile_self (fs : FS) (p : String) (n : Nat) :
    (fs.insertFile p n).statSize p = some n := by
  simp [FS.insertFile, FS.statSize, List.find?_cons]

theorem FS.statSize_insertFile_ne (fs : FS) {p q : String} (n : Nat) (h : q ≠ p) :
    (fs.insertFile p n).statSize q = fs.statSize q := by
  have hq : (p == q) = false := by
    simp
    exact fun hh => h hh.symm
  simp [FS.insertFile, FS.statSize, List.find?_cons, hq]

theorem FS.statSize_unlinkSync_self (fs : FS) (p : String) :
    (fs.unlinkSync p).statSize p = none := by
  simp [FS.unlinkSync, FS.statSize, find?_filter_ne_none]

theorem FS.statSize_unlinkSync_ne (fs : FS) {p q : String} (h : q ≠ p) :
    (fs.unlinkSync p).statSize q = fs.statSize q := by
  simp [FS.unlinkSync, FS.statSize, find?_filter_ne_other _ h]

/-! ## Transform Engine

The five operations.  Progress milestones are pure callback emissions with
no observable effect on state or result, so they are not modelled.  The OS
message of a failed `statSync` is modelled just far enough for the code's
own `includes("ENOENT")` test.
-/

def statMissingMsg (p : String) : String :=
  "ENOENT: no such file or directory, stat " ++ p

structure GsSettings where
  preset : String
  dpi : Nat
  description : String

def getGhostscriptSettings (quality : String) : GsSettings :=
  if quality = "high" then
    { preset := "/prepress", dpi := 300, description := "High Quality (300 DPI, print-ready)" }
  else if quality = "medium" then
    { preset := "/ebook", dpi := 150, description := "Medium Quality (150 DPI, web/email)" }
  else if quality = "low" then
    { preset := "/screen", dpi := 72, description := "Low Quality (72 DPI, maximum compression)" }
  else
    { preset := "/ebook", dpi := 150, description := "Medium Quality (150 DPI, web/email)" }

def gsArgs (settings : GsSettings) (outputPath inputPath : String) : List String := [
  "-sDEVICE=pdfwrite",
  "-dPDFSETTINGS=" ++ settings.preset,
  "-dNOPAUSE",
  "-dQUIET",
  "-dBATCH",
  "-dCompatibilityLevel=1.4",
  "-dColorImageResolution=" ++ toString settings.dpi,
  "-dGrayImageResolution=" ++ toString settings.dpi,
  "-dMonoImageResolution=" ++ toString settings.dpi,
  "-dColorImageDownsampleType=/Bicubic",
  "-dGrayImageDownsampleType=/Bicubic",
  "-dMonoImageDownsampleType=/Bicubic",
  "-dCompressFonts=true",
  "-dDetectDuplicateImages=true",
  "-dDownsampleColorImages=true",
  "-dDownsampleGrayImages=true",
  "-dDownsampleMonoImages=true",
  "-sOutputFile=" ++ outputPath,
  inputPath]

def ffmpegImageArgs (inputPath outputPath : String) : List String :=
  ["-i", inputPath, "-c:v", "libwebp", "-quality", "80", "-compression_level", "6",
   "-y", outputPath]

def ffmpegVideoArgs (inputPath outputPath : String) : List String :=
  ["-i", inputPath, "-c:v", "libx264", "-crf", "23", "-preset", "medium", "-c:a", "aac",
   "-b:a", "128k", "-movflags", "+faststart", "-y", outputPath]

def resizeImageArgs (inputPath outputPath scaleFilter : String) : List String :=
  ["-i", inputPath, "-vf", scaleFilter, "-c:v", "libwebp", "-quality", "85",
   "-compression_level", "4", "-y", outputPath]

def resizeVideoArgs (inputPath outputPath scaleFilter : String) : List String :=
  ["-i", inputPath, "-vf", scaleFilter, "-c:v", "libx264", "-preset", "medium", "-crf", "23",
   "-c:a", "aac", "-b:a", "128k", "-movflags", "+faststart", "-y", outputPath]

def imageScaleFilter (preset : ResizePreset) : String :=
  if truthyNat preset.maxWidth && truthyNat preset.maxHeight then
    "scale=min(" ++ toString (preset.maxWidth.getD 0) ++ ",iw):min("
      ++ toString (preset.maxHeight.getD 0) ++ ",ih):force_original_aspect_ratio=decrease"
  else if truthyNat preset.width && truthyNat preset.height then
    "scale=" ++ toString (preset.width.getD 0) ++ ":" ++ toString (preset.height.getD 0)
      ++ ":force_original_aspect_ratio=decrease"
  else ""

def videoScaleFilter (preset : ResizePreset) : String :=
  if truthyNat preset.width && truthyNat preset.height then
    "scale=" ++ toString (preset.width.getD 0) ++ ":" ++ toString (preset.height.getD 0)
      ++ ":force_original_aspect_ratio=decrease,pad=" ++ toString (preset.width.getD 0)
      ++ ":" ++ toString (preset.height.getD 0) ++ ":(ow-iw)/2:(oh-ih)/2"
  else if truthyNat preset.maxWidth && truthyNat preset.maxHeight then
    "scale=min(" ++ toString (preset.maxWidth.getD 0) ++ ",iw):min("
      ++ toString (preset.maxHeight.getD 0) ++ ",ih):force_original_aspect_ratio=decrease"
  else ""

/-- Error enrichment of the `compression.ts` catch blocks: the
FFmpeg-not-found hint added when the message mentions `spawn`/`ENOENT`
(this re-runs the tool search, so it can update the cache). -/
def ffmpegEnrich (env : Env) (fs : FS) (cache : Option String) (msg : String) :
    String × Option String :=
  if strIncludes msg "spawn" || strIncludes msg "ENOENT" then
    let pc := getFfmpegPath env fs cache
    let isWindows := env.platform == "win32"
    let assetPath := pathJoin env.assetsPath ("ffmpeg" ++ (if isWindows then ".exe" else ""))
    ("FFmpeg not found. Tried: " ++ pc.1 ++ ". Asset path: " ++ assetPath ++ ". Error: " ++ msg,
     pc.2)
  else (msg, cache)

/-- Error enrichment of the `resize.ts` catch blocks. -/
def resizeEnrich (msg : String) : String :=
  if strIncludes msg "spawn" || strIncludes msg "ENOENT" then "FFmpeg not found. " ++ msg
  else msg

/-- Error enrichment of the `compressPDF` catch block. -/
def gsEnrich (env : Env) (fs : FS) (cache : Option String) (msg : String) :
    String × Option String :=
  if strIncludes msg "spawn" || strIncludes msg "ENOENT" then
    let pc := getGhostscriptPath env fs cache
    ("Ghostscript not found. Tried: " ++ pc.1
      ++ ". Please install Ghostscript from https://ghostscript.com/releases/gsdnld.html (Windows) or via brew install ghostscript (macOS). Error: "
      ++ msg, pc.2)
  else (msg, cache)

def compressImageOutputPath (inputPath : String) : String :=
  let ext := strToLower (pathExtname inputPath)
  pathJoin (pathDirname inputPath) (pathBaseStrip inputPath ext ++ ".min.webp")

def compressVideoOutputPath (inputPath : String) : String :=
  let ext := strToLower (pathExtname inputPath)
  pathJoin (pathDirname inputPath) (pathBaseStrip inputPath ext ++ ".min.mp4")

def compressPDFOutputPath (inputPath : String) : String :=
  let ext := strToLower (pathExtname inputPath)
  pathJoin (pathDirname inputPath) (pathBaseStrip inputPath ext ++ ".min.pdf")

def resizeImageOutputPath (inputPath : String) : String :=
  let ext := strToLower (pathExtname inputPath)
  pathJoin (pathDirname inputPath) (pathBaseStrip inputPath ext ++ ".resized.webp")

def resizeVideoOutputPath (inputPath : String) : String :=
  let ext := strToLower (pathExtname inputPath)
  pathJoin (pathDirname inputPath) (pathBaseStrip inputPath ext ++ ".resized.mp4")

/-- Embedded `compressImage` (ffmpeg re-encode to WebP, quality 80,
compression level 6). -/
def compressImage (env : Env) (st : PState) (inputPath : String) :
    CompressionResult × PState :=
  match st.fs.statSize inputPath with
  | none =>
    let mc := ffmpegEnrich env st.fs st.ffCache (statMissingMsg inputPath)
    ({ success := false, error := some mc.1 }, { st with ffCache := mc.2 })
  | some originalSize =>
    let outputPath := compressImageOutputPath inputPath
    let pc := getFfmpegPath env st.fs st.ffCache
    let st1 : PState := { st with ffCache := pc.2 }
    match env.run pc.1 (ffmpegImageArgs inputPath outputPath) st1.fs with
    | .throws msg =>
      let mc := ffmpegEnrich env st1.fs st1.ffCache msg
      ({ success := false, error := some mc.1 }, { st1 with ffCache := mc.2 })
    | .ran output stderr =>
      let fs2 := match output with
        | some n => st1.fs.insertFile outputPath n
        | none => st1.fs
      let st2 : PState := { st1 with fs := fs2 }
      match st2.fs.statSize outputPath with
      | none =>
        let mc := ffmpegEnrich env st2.fs st2.ffCache
          ("Output file not created. FFmpeg stderr: " ++ stderr)
        ({ success := false, error := some mc.1 }, { st2 with ffCache := mc.2 })
      | some compressedSize =>
        ({ success := true, outputPath := some outputPath, originalSize := some originalSize,
           compressedSize := some compressedSize }, st2)

/-- Embedded `compressVideo` (ffmpeg H.264 CRF 23, AAC 128k, faststart). -/
def compressVideo (env : Env) (st : PState) (inputPath : String) :
    CompressionResult × PState :=
  match st.fs.statSize inputPath with
  | none =>
    let mc := ffmpegEnrich env st.fs st.ffCache (statMissingMsg inputPath)
    ({ success := false, error := some mc.1 }, { st with ffCache := mc.2 })
  | some originalSize =>
    let outputPath := compressVideoOutputPath inputPath
    let pc := getFfmpegPath env st.fs st.ffCache
    let st1 : PState := { st with ffCache := pc.2 }
    match env.run pc.1 (ffmpegVideoArgs inputPath outputPath) st1.fs with
    | .throws msg =>
      let mc := ffmpegEnrich env st1.fs st1.ffCache msg
      ({ success := false, error := some mc.1 }, { st1 with ffCache := mc.2 })
    | .ran output stderr =>
      let fs2 := match output with
        | some n => st1.fs.insertFile outputPath n
        | none => st1.fs
      let st2 : PState := { st1 with fs := fs2 }
      match st2.fs.statSize outputPath with
      | none =>
        let mc := ffmpegEnrich env st2.fs st2.ffCache
          ("Output file not created. FFmpeg stderr: " ++ stderr)
        ({ success := false, error := some mc.1 }, { st2 with ffCache := mc.2 })
      | some compressedSize =>
        ({ success := true, outputPath := some outputPath, originalSize := some originalSize,
           compressedSize := some compressedSize }, st2)

/-- Embedded `resizeImage` (ffmpeg bounded-fit scale to WebP, quality 85). -/
def resizeImage (env : Env) (st : PState) (inputPath : String) (preset : ResizePreset) :
    ProcessingResult × PState :=
  match st.fs.statSize inputPath with
  | none =>
    ({ success := false, error := some (resizeEnrich (statMissingMsg inputPath)),
       fileName := some (pathFileName inputPath), fileType := some "image" }, st)
  | some originalSize =>
    let outputPath := resizeImageOutputPath inputPath
    let pc := getFfmpegPath env st.fs st.ffCache
    let st1 : PState := { st with ffCache := pc.2 }
    match env.run pc.1 (resizeImageArgs inputPath outputPath (imageScaleFilter preset)) st1.fs with
    | .throws msg =>
      ({ success := false, error := some (resizeEnrich msg),
         fileName := some (pathFileName inputPath), fileType := some "image" }, st1)
    | .ran output _stderr =>
      let fs2 := match output with
        | some n => st1.fs.insertFile outputPath n
        | none => st1.fs
      let st2 : PState := { st1 with fs := fs2 }
      match st2.fs.statSize outputPath with
      | none =>
        ({ success := false, error := some (resizeEnrich "Output file not created"),
           fileName := some (pathFileName inputPath), fileType := some "image" }, st2)
      | some processedSize =>
        ({ success := true, outputPath := some outputPath, originalSize := some originalSize,
           processedSize := some processedSize, fileName := some (pathFileName outputPath),
           fileType := some "image" }, st2)

/-- Embedded `resizeVideo` (ffmpeg scale with pad for exact presets,
H.264 CRF 23, faststart). -/
def resizeVideo (env : Env) (st : PState) (inputPath : String) (preset : ResizePreset) :
    ProcessingResult × PState :=
  match st.fs.statSize inputPath with
  | none =>
    ({ success := false, error := some (resizeEnrich (statMissingMsg inputPath)),
       fileName := some (pathFileName inputPath), fileType := some "video" }, st)
  | some originalSize =>
    let outputPath := resizeVideoOutputPath inputPath
    let pc := getFfmpegPath env st.fs st.ffCache
    let st1 : PState := { st with ffCache := pc.2 }
    match env.run pc.1 (resizeVideoArgs inputPath outputPath (videoScaleFilter preset)) st1.fs with
    | .throws msg =>
      ({ success := false, error := some (resizeEnrich msg),
         fileName := some (pathFileName inputPath), fileType := some "video" }, st1)
    | .ran output _stderr =>
      let fs2 := match output with
        | some n => st1.fs.insertFile outputPath n
        | none => st1.fs
      let st2 : PState := { st1 with fs := fs2 }
      match st2.fs.statSize outputPath with
      | none =>
        ({ success := false, error := some (resizeEnrich "Output file not created"),
           fileName := some (pathFileName inputPath), fileType := some "video" }, st2)
      | some processedSize =>
        ({ success := true, outputPath := some outputPath, originalSize := some originalSize,
           processedSize := some processedSize, fileName := some (pathFileName outputPath),
           fileType := some "video" }, st2)

/-- Embedded `compressPDF` (Ghostscript `pdfwrite` with the quality-tier
settings), including the size guard: an output not strictly smaller than
the input is deleted and success is reported on the original file. -/
def compressPDF (env : Env) (st : PState) (inputPath : String) (quality : String) :
    PDFCompressionResult × PState :=
  match st.fs.statSize inputPath with
  | none =>
    let mc := gsEnrich env st.fs st.gsCache (statMissingMsg inputPath)
    ({ success := false, error := some mc.1 }, { st with gsCache := mc.2 })
  | some originalSize =>
    let outputPath := compressPDFOutputPath inputPath
    let pc := getGhostscriptPath env st.fs st.gsCache
    let st1 : PState := { st with gsCache := pc.2 }
    let settings := getGhostscriptSettings quality
    match env.run pc.1 (gsArgs settings outputPath inputPath) st1.fs with
    | .throws msg =>
      let mc := gsEnrich env st1.fs st1.gsCache msg
      ({ success := false, error := some mc.1 }, { st1 with gsCache := mc.2 })
    | .ran output stderr =>
      let fs2 := match output with
        | some n => st1.fs.insertFile outputPath n
        | none => st1.fs
      let st2 : PState := { st1 with fs := fs2 }
      match st2.fs.statSize outputPath with
      | none =>
        let mc := gsEnrich env st2.fs st2.gsCache
          ("Output file not created. Ghostscript stderr: " ++ stderr)
        ({ success := false, error := some mc.1 }, { st2 with gsCache := mc.2 })
      | some compressedSize =>
        if compressedSize ≥ originalSize then
          let st3 : PState := { st2 with fs := st2.fs.unlinkSync outputPath }
          ({ success := true, outputPath := some inputPath, originalSize := some originalSize,
             compressedSize := some originalSize }, st3)
        else
          ({ success := true, outputPath := some outputPath, originalSize := some originalSize,
             compressedSize := some compressedSize }, st2)
/-! ## File Classifier and Stage Orchestrator (`file-router.ts`) -/

inductive FileCategory where
  | image
  | video
  | pdf
  | unsupported
deriving DecidableEq

/-- Embedded `detectFileCategory`: content sniffing with a `.pdf`-extension
fallback when sniffing is inconclusive; a sniffing exception degrades to
`unsupported`. -/
def detectFileCategory (env : Env) (filePath : String) : FileCategory × Option String :=
  match env.sniff filePath with
  | .throws _ => (.unsupported, none)
  | .undet =>
    if strToLower (pathExtname filePath) = ".pdf" then (.pdf, some "application/pdf")
    else (.unsupported, none)
  | .mime m =>
    if strStarts "image/" m then (.image, some m)
    else if strStarts "video/" m then (.video, some m)
    else if m = "application/pdf" then (.pdf, some m)
    else (.unsupported, some m)

/-- Reading a `CompressionResult` object through the `ProcessingResult`
interface: the JS object carries `compressedSize` but no `processedSize`
property, so `processedSize` reads as `undefined`. -/
def crToPr (r : CompressionResult) : ProcessingResult :=
  { success := r.success, outputPath := r.outputPath, originalSize := r.originalSize,
    processedSize := none, error := r.error }

/-- Embedded `processImage`: options dispatch (the truthiness chain
`resize && compress && resizePreset` / `resize && resizePreset` /
`compress` is rendered as a match on the preset's presence). -/
def processImage (env : Env) (st : PState) (filePath : String) (opts : ProcessingOptions) :
    ProcessingResult × PState :=
  match opts.resizePreset with
  | some preset =>
    if opts.resize && opts.compress then
      match resizeImage env st filePath preset with
      | (resizeResult, st1) =>
        match resizeResult.success, resizeResult.outputPath with
        | true, some interPath =>
          match compressImage env st1 interPath with
          | (compressResult, st2) =>
            if compressResult.success then
              let final := { compressResult with originalSize := resizeResult.originalSize }
              let st3 :=
                if st2.fs.existsSync interPath && (some interPath != final.outputPath) then
                  { st2 with fs := st2.fs.unlinkSync interPath }
                else st2
              (crToPr final, st3)
            else (crToPr compressResult, st2)
        | _, _ => (resizeResult, st1)
    else if opts.resize then resizeImage env st filePath preset
    else if opts.compress then
      match compressImage env st filePath with
      | (r, st') => (crToPr r, st')
    else ({ success := false, error := some "No processing options specified" }, st)
  | none =>
    if opts.compress then
      match compressImage env st filePath with
      | (r, st') => (crToPr r, st')
    else ({ success := false, error := some "No processing options specified" }, st)

/-- Embedded `processVideo` (same staging as `processImage`, video
transforms). -/
def processVideo (env : Env) (st : PState) (filePath : String) (opts : ProcessingOptions) :
    ProcessingResult × PState :=
  match opts.resizePreset with
  | some preset =>
    if opts.resize && opts.compress then
      match resizeVideo env st filePath preset with
      | (resizeResult, st1) =>
        match resizeResult.success, resizeResult.outputPath with
        | true, some interPath =>
          match compressVideo env st1 interPath with
          | (compressResult, st2) =>
            if compressResult.success then
              let final := { compressResult with originalSize := resizeResult.originalSize }
              let st3 :=
                if st2.fs.existsSync interPath && (some interPath != final.outputPath) then
                  { st2 with fs := st2.fs.unlinkSync interPath }
                else st2
              (crToPr final, st3)
            else (crToPr compressResult, st2)
        | _, _ => (resizeResult, st1)
    else if opts.resize then resizeVideo env st filePath preset
    else if opts.compress then
      match compressVideo env st filePath with
      | (r, st') => (crToPr r, st')
    else ({ success := false, error := some "No processing options specified" }, st)
  | none =>
    if opts.compress then
      match compressVideo env st filePath with
      | (r, st') => (crToPr r, st')
    else ({ success := false, error := some "No processing options specified" }, st)

/-- Embedded `processPDF`: delegates to `compressPDF` (the processing
options are not consulted) and maps `compressedSize` to `processedSize`. -/
def processPDF (env : Env) (st : PState) (filePath : String) (quality : String) :
    ProcessingResult × PState :=
  match compressPDF env st filePath quality with
  | (result, st') =>
    ({ success := result.success, outputPath := result.outputPath,
       originalSize := result.originalSize, processedSize := result.compressedSize,
       error := result.error }, st')

/-- Embedded `routeFileCompression`. -/
def routeFileCompression (env : Env) (st : PState) (filePath : String)
    (opts : ProcessingOptions) (pdfQuality : String) : ProcessingResult × PState :=
  let fileName := pathFileName filePath
  match detectFileCategory env filePath with
  | (.unsupported, mime) =>
    ({ success := false,
       error := some ("Unsupported file type"
         ++ (match mime with
             | some m => if m = "" then "" else ": " ++ m
             | none => "")
         ++ ". Only images, videos, and PDFs are supported."),
       fileName := some fileName }, st)
  | (.image, _) =>
    match processImage env st filePath opts with
    | (r, st') => ({ r with fileType := some "image", fileName := some fileName }, st')
  | (.video, _) =>
    match processVideo env st filePath opts with
    | (r, st') => ({ r with fileType := some "video", fileName := some fileName }, st')
  | (.pdf, _) =>
    match processPDF env st filePath pdfQuality with
    | (r, st') => ({ r with fileType := some "pdf", fileName := some fileName }, st')

/-! ## Batch Coordinator (`batch-processor.ts`) -/

/-- Fuel-based floor logarithm base 1024, an exact model of
`Math.floor(Math.log(bytes) / Math.log(1024))` for positive inputs. -/
def logFloor1024Aux : Nat → Nat → Nat
  | 0, _ => 0
  | fuel + 1, n => if n < 1024 then 0 else logFloor1024Aux fuel (n / 1024) + 1

def logFloor1024 (n : Nat) : Nat := logFloor1024Aux n n

def byteUnits : List String := ["B", "KB", "MB", "GB"]

/-- JS `Number.prototype.toFixed(1)` applied to the exact rational value
`num / den` (`den > 0`): the sign of the value, then its magnitude rounded
half-up to one decimal place.  Modelled over integers
(`⌊|x|·10 + 1/2⌋ = (20·|num| + den) / (2·den)` for positive `den`) so that
concrete renderings compute by reduction. -/
def toFixed1Q (num : ℤ) (den : ℕ) : String :=
  let s := if num < 0 then "-" else ""
  let m := (20 * num.natAbs + den) / (2 * den)
  s ++ toString (m / 10) ++ "." ++ toString (m % 10)

/-- Embedded `formatBytes`.  `Math.log`/`Math.pow` are modelled exactly; a
negative input (reachable through the saved-bytes delta) propagates JS
`NaN` into `"NaN undefined"`, and a magnitude of a TB or more indexes past
the unit array, rendering `"undefined"` as in JS. -/
def formatBytes (bytes : ℤ) : String :=
  if bytes = 0 then "0 B"
  else if bytes < 0 then "NaN undefined"
  else
    let i := logFloor1024 bytes.toNat
    let unit := byteUnits.getD i "undefined"
    toFixed1Q bytes (1024 ^ i) ++ " " ++ unit

/-- Signed dyadic value `m · 2^e`: the exact value of an IEEE-754 binary64
number.  Overflow and subnormals are unreachable at the magnitudes the
summary computes and are not modelled; the byte totals themselves are
taken as exact (they are integral and far below 2^53 in any real batch —
beyond that the JS accumulator would already have rounded them). -/
structure Dyadic where
  m : ℤ
  e : ℤ

/-- Double the numerator until `num / den ≥ 2^52`; returns the scaled
numerator and the number of doublings. -/
def flScaleUp : Nat → ℕ → ℕ → ℕ × ℕ
  | 0, num, _ => (num, 0)
  | fuel + 1, num, den =>
    if num < 2 ^ 52 * den then
      let nk := flScaleUp fuel (2 * num) den
      (nk.1, nk.2 + 1)
    else (num, 0)

/-- Double the denominator until `num / den < 2^53`; returns the scaled
denominator and the number of doublings. -/
def flScaleDown : Nat → ℕ → ℕ → ℕ × ℕ
  | 0, _, den => (den, 0)
  | fuel + 1, num, den =>
    if 2 ^ 53 * den ≤ num then
      let dd := flScaleDown fuel num (2 * den)
      (dd.1, dd.2 + 1)
    else (den, 0)

/-- Round-to-nearest, ties-to-even binary64 value of `num / den`
(`num, den > 0`), as an exact dyadic: scale the fraction into
`[2^52, 2^53)`, round the 53-bit significand, keep the binary exponent. -/
def flRoundPos (num den : ℕ) : Dyadic :=
  let nk := flScaleUp (53 + den) num den
  let dd := flScaleDown (53 + num) nk.1 den
  let q := nk.1 / dd.1
  let r := nk.1 % dd.1
  let S := if 2 * r < dd.1 then q
    else if dd.1 < 2 * r then q + 1
    else if q % 2 = 0 then q else q + 1
  { m := (S : ℤ), e := (dd.2 : ℤ) - (nk.2 : ℤ) }

/-- Round-to-nearest, ties-to-even binary64 value of `num / den`
(`den > 0`). -/
def flRound (num : ℤ) (den : ℕ) : Dyadic :=
  if num = 0 then { m := 0, e := 0 }
  else if 0 < num then flRoundPos num.natAbs den
  else
    let x := flRoundPos num.natAbs den
    { x with m := -x.m }

/-- Re-round an exact dyadic to binary64 (used after the exact
subtraction and multiplication steps). -/
def flRoundDyadic (x : Dyadic) : Dyadic :=
  if 0 ≤ x.e then flRound (x.m * 2 ^ x.e.toNat) 1
  else flRound x.m (2 ^ (-x.e).toNat)

/-- Binary64 evaluation of the summary's
`(1 - totalProcessedSize / totalOriginalSize) * 100`: the division is
rounded to the nearest double, then the subtraction and the
multiplication are each performed exactly and rounded to the nearest
double, exactly as IEEE-754 arithmetic evaluates the JS expression. -/
def flSavingsValue (original processed : ℕ) : Dyadic :=
  let x := flRound (processed : ℤ) original
  let emin := min x.e 0
  let oneMinus : Dyadic :=
    { m := 2 ^ (0 - emin).toNat - x.m * 2 ^ (x.e - emin).toNat, e := emin }
  let y := flRoundDyadic oneMinus
  flRoundDyadic { y with m := y.m * 100 }

/-- JS `Number.prototype.toFixed(1)` on the exact value of a binary64
number: the sign, then the integer `n` whose `n/10` is closest to the
magnitude, ties taken upward (the ES specification picks the larger
candidate), rendered with one decimal digit. -/
def toFixed1Fl (x : Dyadic) : String :=
  let s := if x.m < 0 then "-" else ""
  let a := 10 * x.m.natAbs
  let n := if 0 ≤ x.e then a * 2 ^ x.e.toNat
    else (2 * a + 2 ^ (-x.e).toNat) / 2 ^ ((-x.e).toNat + 1)
  s ++ toString (n / 10) ++ "." ++ toString (n % 10)

/-- Embedded `generateBatchSummary`. -/
def generateBatchSummary (result : BatchResult) (operationName : String) : String :=
  if result.successCount = 0 then
    "❌ Failed to " ++ strToLower operationName ++ " " ++ toString result.totalFiles
      ++ " file" ++ (if result.totalFiles > 1 then "s" else "")
  else
    let savings :=
      if result.totalOriginalSize > 0 then
        toFixed1Fl (flSavingsValue result.totalOriginalSize result.totalProcessedSize)
      else "0"
    let savedBytes : ℤ := (result.totalOriginalSize : ℤ) - (result.totalProcessedSize : ℤ)
    let summary := "✅ " ++ operationName ++ " " ++ toString result.successCount ++ " file"
      ++ (if result.successCount > 1 then "s" else "") ++ "!"
    let summary :=
      if result.totalOriginalSize > 0 ∧ result.totalProcessedSize > 0 then
        summary ++ "\nSaved " ++ formatBytes savedBytes ++ " (" ++ savings ++ "% reduction)"
      else summary
    if result.failureCount > 0 then
      summary ++ "\n⚠️ " ++ toString result.failureCount ++ " file"
        ++ (if result.failureCount > 1 then "s" else "") ++ " failed"
    else summary

/-- OS message of a rename on a missing source, modelled just far enough
for the catch block that consumes it. -/
def renameMissingMsg (p : String) : String :=
  "ENOENT: no such file or directory, rename " ++ p

/-- Loop state of `processBatch`. -/
structure BatchAcc where
  st : PState
  results : List ProcessingResult
  errors : List (String × String)
  totalOriginalSize : Nat
  totalProcessedSize : Nat
  successCount : Nat
  failureCount : Nat

/-- Success bookkeeping of the batch loop (`results.push`, counters, size
sums over `|| 0`). -/
def recordSuccess (acc : BatchAcc) (st' : PState) (result : ProcessingResult) : BatchAcc :=
  { acc with
    st := st',
    results := acc.results ++ [result],
    successCount := acc.successCount + 1,
    totalOriginalSize := acc.totalOriginalSize + result.originalSize.getD 0,
    totalProcessedSize := acc.totalProcessedSize + result.processedSize.getD 0 }

/-- Failure bookkeeping of the batch loop (`errors.push`, counter). -/
def recordFailure (acc : BatchAcc) (st' : PState) (fileName msg : String) : BatchAcc :=
  { acc with
    st := st',
    errors := acc.errors ++ [(fileName, msg)],
    failureCount := acc.failureCount + 1 }

/-- One iteration of the `processBatch` loop: toast updates have no
observable effect; the guard sniff, the router call, the output-folder
placement (whose `renameSync` may throw, caught by the iteration's
`try`). -/
def processFile (env : Env) (opts : ProcessingOptions) (acc : BatchAcc) (filePath : String) :
    BatchAcc :=
  let fileName := pathFileName filePath
  let sourceDir := pathDirname filePath
  let outputFolderName := env.outputFolderName.map strTrim
  match env.sniff filePath with
  | .throws msg => recordFailure acc acc.st fileName msg
  | .undet => recordFailure acc acc.st fileName "Could not determine file type"
  | .mime _ =>
    let pdfQuality := jsOrStr env.pdfQuality "medium"
    match routeFileCompression env acc.st filePath opts pdfQuality with
    | (result, st') =>
      match result.success, result.outputPath with
      | true, some outPath =>
        match outputFolderName with
        | some folder =>
          if folder ≠ "" then
            let targetDir := pathJoin sourceDir folder
            let fsA := if st'.fs.existsSync targetDir then st'.fs else st'.fs.mkdirSync targetDir
            let stA : PState := { st' with fs := fsA }
            let newPath := pathJoin targetDir (pathFileName outPath)
            if newPath ≠ outPath then
              if (stA.fs.statSize outPath).isSome then
                if env.renameOk outPath newPath then
                  recordSuccess acc { stA with fs := stA.fs.renameFile outPath newPath }
                    { result with outputPath := some newPath }
                else recordFailure acc stA fileName env.renameErrMsg
              else recordFailure acc stA fileName (renameMissingMsg outPath)
            else recordSuccess acc stA result
          else recordSuccess acc st' result
        | none => recordSuccess acc st' result
      | true, none => recordFailure acc st' fileName (jsOrStr result.error "Unknown error")
      | false, _ => recordFailure acc st' fileName (jsOrStr result.error "Unknown error")

def batchInit (st : PState) : BatchAcc :=
  { st := st, results := [], errors := [], totalOriginalSize := 0, totalProcessedSize := 0,
    successCount := 0, failureCount := 0 }

/-- Embedded `processBatch`: strictly sequential fold over the input list,
returning the aggregated `BatchResult` and the final state. -/
def processBatch (env : Env) (st : PState) (filePaths : List String)
    (opts : ProcessingOptions) : BatchResult × PState :=
  let acc := filePaths.foldl (processFile env opts) (batchInit st)
  ({ totalFiles := filePaths.length, successCount := acc.successCount,
     failureCount := acc.failureCount, totalOriginalSize := acc.totalOriginalSize,
     totalProcessedSize := acc.totalProcessedSize, results := acc.results,
     errors := acc.errors }, acc.st)
/-! ## Witness fixtures -/

def fsEmpty : FS := { files := [], dirs := [] }

/-- Minimal concrete environment for witnesses (Darwin, nothing resolvable,
every subprocess completes without creating output). -/
def envW : Env :=
  { platform := "darwin", assetsPath := "/ext/assets", cwd := "/work",
    dirnameVar := "/ext/src", readdir := fun _ => [],
    requireFfmpegStatic := none, resolvePkgJson := none, resolveDirect := none,
    sniff := fun _ => .undet, run := fun _ _ _ => .ran none "",
    outputFolderName := none, pdfQuality := none, renameOk := fun _ _ => true,
    renameErrMsg := "EXDEV: cross-device link not permitted" }

/-! ## Claim theorems -/

theorem find?_existsSync_eq_none {fs : FS} (h : ∀ q, fs.existsSync q = false)
    (l : List String) : l.find? (fun p => fs.existsSync p) = none :=
  List.find?_eq_none.mpr fun x _ => by simp [h]

theorem find?_false_eq_none (l : List String) : l.find? (fun _ => false) = none :=
  List.find?_eq_none.mpr fun _ _ => by simp

/-- C7: tool resolution always resolves to a path that is then memoised
(the cache is set to exactly the returned path); a cached path is returned
only after passing an `existsSync` revalidation; a stale cached path
triggers the identical full priority-ordered re-search as an uncached
lookup; and when no candidate exists on disk the search falls back to the
bare executable name — for both `getGhostscriptPath` and `getFfmpegPath`. -/
theorem tool_path_cache_revalidation :
    (∀ env fs cache,
      (getGhostscriptPath env fs cache).2 = some (getGhostscriptPath env fs cache).1)
  ∧ (∀ env fs p, fs.existsSync p = true → getGhostscriptPath env fs (some p) = (p, some p))
  ∧ (∀ env fs p, fs.existsSync p = false →
      getGhostscriptPath env fs (some p) = getGhostscriptPath env fs none)
  ∧ (∀ env fs, (∀ q, fs.existsSync q = false) →
      (getGhostscriptPath env fs none).1
        = (if env.platform == "win32" then "gswin64c.exe" else "gs"))
  ∧ (∀ env fs cache,
      (getFfmpegPath env fs cache).2 = some (getFfmpegPath env fs cache).1)
  ∧ (∀ env fs p, fs.existsSync p = true → getFfmpegPath env fs (some p) = (p, some p))
  ∧ (∀ env fs p, fs.existsSync p = false →
      getFfmpegPath env fs (some p) = getFfmpegPath env fs none)
  ∧ (∀ env fs, (∀ q, fs.existsSync q = false) →
      (getFfmpegPath env fs none).1 = "ffmpeg") := by
  refine ⟨?_, ?_, ?_, ?_, ?_, ?_, ?_, ?_⟩
  · intro env fs cache
    cases cache with
    | none => rfl
    | some p =>
      by_cases h : fs.existsSync p
      · simp [getGhostscriptPath, h]
      · simp [getGhostscriptPath, h]
  · intro env fs p h
    simp [getGhostscriptPath, h]
  · intro env fs p h
    simp [getGhostscriptPath, h]
  · intro env fs h
    simp [getGhostscriptPath, getGhostscriptSearch, find?_existsSync_eq_none h, h,
      find?_false_eq_none]
  · intro env fs cache
    cases cache with
    | none => rfl
    | some p =>
      by_cases h : fs.existsSync p
      · simp [getFfmpegPath, h]
      · simp [getFfmpegPath, h]
  · intro env fs p h
    simp [getFfmpegPath, h]
  · intro env fs p h
    simp [getFfmpegPath, h]
  · intro env fs h
    simp only [getFfmpegPath, getFfmpegSearch, find?_existsSync_eq_none h, h]
    cases hr : env.requireFfmpegStatic with
    | none => simp [h, find?_existsSync_eq_none h, find?_false_eq_none]
    | some p => simp [h, find?_existsSync_eq_none h, find?_false_eq_none]

theorem tool_path_cache_revalidation_witness :
    fsEmpty.existsSync "/opt/stale/gs" = false
    ∧ getGhostscriptPath envW fsEmpty (some "/opt/stale/gs")
        = getGhostscriptPath envW fsEmpty none
    ∧ fsEmpty.existsSync "/usr/local/bin/gs" = false
    ∧ (getGhostscriptPath envW fsEmpty none).1 = "gs"
    ∧ (getFfmpegPath envW fsEmpty none).1 = "ffmpeg" := by
  refine ⟨rfl, ?_, rfl, ?_, ?_⟩
  · exact tool_path_cache_revalidation.2.2.1 envW fsEmpty "/opt/stale/gs" rfl
  · exact (tool_path_cache_revalidation.2.2.2.1 envW fsEmpty fun _ => rfl).trans (by rfl)
  · exact tool_path_cache_revalidation.2.2.2.2.2.2.2 envW fsEmpty fun _ => rfl
/-- C2: a successful `compressPDF` never reports a processed size above
the original size, and when the optimizer's output file is not strictly
smaller than the input the size guard deletes the optimized file and
returns success with the original input path as `outputPath` and a
reported size equal to `originalSize`. -/
theorem compressPDF_size_guard :
    (∀ env st p q r st', compressPDF env st p q = (r, st') → r.success = true →
      ∃ o c, r.originalSize = some o ∧ r.compressedSize = some c ∧ c ≤ o)
  ∧ (∀ env st p q o n stderr r st',
      st.fs.statSize p = some o →
      env.run (getGhostscriptPath env st.fs st.gsCache).1
          (gsArgs (getGhostscriptSettings q) (compressPDFOutputPath p) p) st.fs
        = .ran (some n) stderr →
      o ≤ n →
      compressPDF env st p q = (r, st') →
      r = { success := true, outputPath := some p, originalSize := some o,
            compressedSize := some o }
        ∧ st'.fs.statSize (compressPDFOutputPath p) = none) := by
  constructor
  · intro env st p q r st' heq hs
    unfold compressPDF at heq
    split at heq
    · injection heq with h1 h2
      subst h1
      simp at hs
    · rename_i o hstat
      dsimp only at heq
      split at heq
      · injection heq with h1 h2
        subst h1
        simp at hs
      · rename_i output stderr
        split at heq
        · injection heq with h1 h2
          subst h1
          simp at hs
        · rename_i c hstat2
          split at heq
          · rename_i hge
            injection heq with h1 h2
            subst h1
            exact ⟨o, o, rfl, rfl, le_refl o⟩
          · rename_i hge
            injection heq with h1 h2
            subst h1
            exact ⟨o, c, rfl, rfl, le_of_lt (lt_of_not_ge hge)⟩
  · intro env st p q o n stderr r st' hstat hrun hle heq
    unfold compressPDF at heq
    rw [hstat] at heq
    dsimp only at heq
    rw [hrun] at heq
    dsimp only at heq
    rw [FS.statSize_insertFile_self] at heq
    dsimp only at heq
    rw [if_pos (show n ≥ o from hle)] at heq
    injection heq with h1 h2
    subst h1
    subst h2
    exact ⟨rfl, FS.statSize_unlinkSync_self _ _⟩

def stW2 : PState :=
  { fs := { files := [("/docs/report.pdf", 100)], dirs := [] }, gsCache := none,
    ffCache := none }

/-- Environment in which Ghostscript always "produces" a 100-byte output
file. -/
def envW2 : Env :=
  { envW with run := fun _ _ _ => .ran (some 100) "" }

theorem compressPDF_size_guard_witness :
    (compressPDF envW2 stW2 "/docs/report.pdf" "medium").1
        = { success := true, outputPath := some "/docs/report.pdf",
            originalSize := some 100, compressedSize := some 100 }
      ∧ (compressPDF envW2 stW2 "/docs/report.pdf" "medium").2.fs.statSize
          (compressPDFOutputPath "/docs/report.pdf") = none := by
  have := compressPDF_size_guard.2 envW2 stW2 "/docs/report.pdf" "medium" 100 100 ""
    (compressPDF envW2 stW2 "/docs/report.pdf" "medium").1
    (compressPDF envW2 stW2 "/docs/report.pdf" "medium").2
    (by decide) rfl (by decide) rfl
  exact this
/-- C8: `compressImage` writes its output to the sibling path
`dir(p)/<stem>.min.webp`; that path is never equal to the input path, so a
second compress-only run on an already-compressed `x.min.webp` targets the
distinct, non-colliding `x.min.min.webp` and never overwrites its own
input. -/
theorem compressImage_output_distinct :
    (∀ env st p r st', compressImage env st p = (r, st') → r.success = true →
      r.outputPath = some (compressImageOutputPath p))
  ∧ (∀ p, compressImageOutputPath p ≠ p)
  ∧ compressImageOutputPath "/a/x.min.webp" = "/a/x.min.min.webp" := by
  refine ⟨?_, ?_, by decide⟩
  · intro env st p r st' heq hs
    unfold compressImage at heq
    split at heq
    · injection heq with h1 h2
      subst h1
      simp at hs
    · rename_i o hstat
      dsimp only at heq
      split at heq
      · injection heq with h1 h2
        subst h1
        simp at hs
      · rename_i output stderr
        split at heq
        · injection heq with h1 h2
          subst h1
          simp at hs
        · rename_i c hstat2
          injection heq with h1 h2
          subst h1
          rfl
  · intro p
    exact minOut_ne p ".min.webp" ("min.webp").data rfl (by decide) (by decide)

def stW3 : PState :=
  { fs := { files := [("/a/x.min.webp", 50)], dirs := [] }, gsCache := none, ffCache := none }

/-- Environment in which ffmpeg always produces a 10-byte output file. -/
def envW3 : Env :=
  { envW with run := fun _ _ _ => .ran (some 10) "" }

theorem compressImage_output_distinct_witness :
    (compressImage envW3 stW3 "/a/x.min.webp").1.success = true
    ∧ (compressImage envW3 stW3 "/a/x.min.webp").1.outputPath = some "/a/x.min.min.webp" := by
  refine ⟨by decide, ?_⟩
  have h := compressImage_output_distinct.1 envW3 stW3 "/a/x.min.webp"
    (compressImage envW3 stW3 "/a/x.min.webp").1
    (compressImage envW3 stW3 "/a/x.min.webp").2 rfl (by decide)
  rw [h, compressImage_output_distinct.2.2]
theorem resizeImage_success_originalSize {env st p preset r st'}
    (heq : resizeImage env st p preset = (r, st')) (hs : r.success = true) :
    r.originalSize = st.fs.statSize p := by
  unfold resizeImage at heq
  split at heq
  · injection heq with h1 h2
    subst h1
    simp at hs
  · rename_i o hstat
    dsimp only at heq
    split at heq
    · injection heq with h1 h2
      subst h1
      simp at hs
    · rename_i output stderr
      split at heq
      · injection heq with h1 h2
        subst h1
        simp at hs
      · injection heq with h1 h2
        subst h1
        exact hstat.symm

theorem resizeVideo_success_originalSize {env st p preset r st'}
    (heq : resizeVideo env st p preset = (r, st')) (hs : r.success = true) :
    r.originalSize = st.fs.statSize p := by
  unfold resizeVideo at heq
  split at heq
  · injection heq with h1 h2
    subst h1
    simp at hs
  · rename_i o hstat
    dsimp only at heq
    split at heq
    · injection heq with h1 h2
      subst h1
      simp at hs
    · rename_i output stderr
      split at heq
      · injection heq with h1 h2
        subst h1
        simp at hs
      · injection heq with h1 h2
        subst h1
        exact hstat.symm

/-- C5: a successful resize-then-compress pipeline (image or video)
reports as `originalSize` the `statSync` size of the pre-resize source
file in the pre-pipeline filesystem — not the size of the intermediate
resized artifact. -/
theorem twoStage_originalSize_from_source :
    (∀ env st p preset opts r st',
      opts.resize = true → opts.compress = true → opts.resizePreset = some preset →
      processImage env st p opts = (r, st') → r.success = true →
      r.originalSize = st.fs.statSize p)
  ∧ (∀ env st p preset opts r st',
      opts.resize = true → opts.compress = true → opts.resizePreset = some preset →
      processVideo env st p opts = (r, st') → r.success = true →
      r.originalSize = st.fs.statSize p) := by
  constructor
  · intro env st p preset opts r st' hr hc hp heq hs
    unfold processImage at heq
    rw [hp] at heq
    dsimp only at heq
    rw [hr, hc, if_pos (show ((true && true) = true) from rfl)] at heq
    rcases hres : resizeImage env st p preset with ⟨rr, st1⟩
    rw [hres] at heq
    dsimp only at heq
    split at heq
    · rename_i interPath hrs hro
      rcases hcomp : compressImage env st1 interPath with ⟨cr, st2⟩
      rw [hcomp] at heq
      dsimp only at heq
      split at heq
      · rename_i hcs
        injection heq with h1 h2
        subst h1
        have := resizeImage_success_originalSize hres hrs
        simpa [crToPr] using this
      · rename_i hcs
        injection heq with h1 h2
        subst h1
        simp only [crToPr] at hs
        exact absurd hs (by simpa using hcs)
    · injection heq with h1 h2
      subst h1
      exact resizeImage_success_originalSize hres hs
  · intro env st p preset opts r st' hr hc hp heq hs
    unfold processVideo at heq
    rw [hp] at heq
    dsimp only at heq
    rw [hr, hc, if_pos (show ((true && true) = true) from rfl)] at heq
    rcases hres : resizeVideo env st p preset with ⟨rr, st1⟩
    rw [hres] at heq
    dsimp only at heq
    split at heq
    · rename_i interPath hrs hro
      rcases hcomp : compressVideo env st1 interPath with ⟨cr, st2⟩
      rw [hcomp] at heq
      dsimp only at heq
      split at heq
      · rename_i hcs
        injection heq with h1 h2
        subst h1
        have := resizeVideo_success_originalSize hres hrs
        simpa [crToPr] using this
      · rename_i hcs
        injection heq with h1 h2
        subst h1
        simp only [crToPr] at hs
        exact absurd hs (by simpa using hcs)
    · injection heq with h1 h2
      subst h1
      exact resizeVideo_success_originalSize hres hs

def presetW : ResizePreset :=
  { name := "Medium", description := "1280px (recommended for web)",
    maxWidth := some 1280, maxHeight := some 1280 }

theorem twoStage_originalSize_from_source_witness :
    (processImage envW3 stW3 "/a/x.min.webp"
        { compress := true, resize := true, resizePreset := some presetW }).1.originalSize
      = stW3.fs.statSize "/a/x.min.webp" := by
  exact twoStage_originalSize_from_source.1 envW3 stW3 "/a/x.min.webp" presetW
    { compress := true, resize := true, resizePreset := some presetW }
    (processImage envW3 stW3 "/a/x.min.webp"
      { compress := true, resize := true, resizePreset := some presetW }).1
    (processImage envW3 stW3 "/a/x.min.webp"
      { compress := true, resize := true, resizePreset := some presetW }).2
    rfl rfl rfl rfl (by decide)
theorem processImage_noOptions {env : Env} {st : PState} {p : String}
    {opts : ProcessingOptions} (hc : opts.compress = false) (hr : opts.resize = false) :
    processImage env st p opts
      = ({ success := false, error := some "No processing options specified" }, st) := by
  unfold processImage
  cases hp : opts.resizePreset with
  | none =>
    rw [hc]
    rfl
  | some preset =>
    rw [hr, hc]
    rfl

theorem processVideo_noOptions {env : Env} {st : PState} {p : String}
    {opts : ProcessingOptions} (hc : opts.compress = false) (hr : opts.resize = false) :
    processVideo env st p opts
      = ({ success := false, error := some "No processing options specified" }, st) := by
  unfold processVideo
  cases hp : opts.resizePreset with
  | none =>
    rw [hc]
    rfl
  | some preset =>
    rw [hr, hc]
    rfl

/-- C3 (amended): for image and video inputs, requesting neither compress
nor resize yields a failed result carrying the configuration error
"No processing options specified" and runs no transform — the returned
state is exactly the input state.  PDF inputs, by contrast, ignore the
options entirely and are always routed to the PDF transform (see the
counterexample theorem). -/
theorem noOptions_config_error_image_video :
    (∀ env st p opts pq m,
      env.sniff p = .mime m → strStarts "image/" m = true →
      opts.compress = false → opts.resize = false →
      routeFileCompression env st p opts pq
        = ({ success := false, error := some "No processing options specified",
             fileName := some (pathFileName p), fileType := some "image" }, st))
  ∧ (∀ env st p opts pq m,
      env.sniff p = .mime m → strStarts "image/" m = false →
      strStarts "video/" m = true →
      opts.compress = false → opts.resize = false →
      routeFileCompression env st p opts pq
        = ({ success := false, error := some "No processing options specified",
             fileName := some (pathFileName p), fileType := some "video" }, st)) := by
  constructor
  · intro env st p opts pq m hsniff himg hc hr
    unfold routeFileCompression detectFileCategory
    rw [hsniff]
    dsimp only
    simp only [himg, eq_self_iff_true, if_true]
    rw [processImage_noOptions hc hr]
  · intro env st p opts pq m hsniff himg hvid hc hr
    unfold routeFileCompression detectFileCategory
    rw [hsniff]
    dsimp only
    simp only [himg, hvid, eq_self_iff_true, Bool.false_eq_true, if_true, if_false]
    rw [processVideo_noOptions hc hr]

def stC3 : PState :=
  { fs := { files := [("/d/doc.pdf", 10)], dirs := [] }, gsCache := none, ffCache := none }

/-- Environment whose sniffer reports `application/pdf` and whose
subprocesses produce a 5-byte output file. -/
def envC3 : Env :=
  { envW with sniff := fun _ => .mime "application/pdf", run := fun _ _ _ => .ran (some 5) "" }

/-- C3 counterexample: a supported PDF input with both `compress` and
`resize` false is not rejected as a configuration error — the router runs
the PDF transform anyway and reports success with a compressed output. -/
theorem noOptions_pdf_counterexample :
    (routeFileCompression envC3 stC3 "/d/doc.pdf"
        { compress := false, resize := false, resizePreset := none } "medium").1.success = true
    ∧ (routeFileCompression envC3 stC3 "/d/doc.pdf"
        { compress := false, resize := false, resizePreset := none } "medium").1.outputPath
        = some "/d/doc.min.pdf"
    ∧ (routeFileCompression envC3 stC3 "/d/doc.pdf"
        { compress := false, resize := false, resizePreset := none } "medium").1.error
        = none := by
  refine ⟨by decide, by decide, by decide⟩

/-- Environment whose sniffer reports `image/png`. -/
def envC3i : Env :=
  { envW with sniff := fun _ => .mime "image/png" }

theorem noOptions_config_error_image_video_witness :
    routeFileCompression envC3i stC3 "/d/pic.png"
        { compress := false, resize := false, resizePreset := none } "medium"
      = ({ success := false, error := some "No processing options specified",
           fileName := some (pathFileName "/d/pic.png"), fileType := some "image" }, stC3) :=
  noOptions_config_error_image_video.1 envC3i stC3 "/d/pic.png"
    { compress := false, resize := false, resizePreset := none } "medium" "image/png"
    rfl rfl rfl rfl
/-- Every iteration of the batch loop increments exactly one of the two
counters, pushing exactly one entry onto the corresponding list. -/
theorem processFile_step_shape (env : Env) (opts : ProcessingOptions) (acc : BatchAcc)
    (p : String) :
    ((processFile env opts acc p).successCount = acc.successCount + 1
      ∧ (processFile env opts acc p).failureCount = acc.failureCount
      ∧ (processFile env opts acc p).results.length = acc.results.length + 1
      ∧ (processFile env opts acc p).errors.length = acc.errors.length)
  ∨ ((processFile env opts acc p).successCount = acc.successCount
      ∧ (processFile env opts acc p).failureCount = acc.failureCount + 1
      ∧ (processFile env opts acc p).results.length = acc.results.length
      ∧ (processFile env opts acc p).errors.length = acc.errors.length + 1) := by
  unfold processFile
  cases env.sniff p with
  | throws msg => right; simp [recordFailure]
  | undet => right; simp [recordFailure]
  | mime m =>
    dsimp only
    repeat' split
    all_goals
      first
        | (left; simp [recordSuccess])
        | (right; simp [recordFailure])

theorem foldl_batch_invariant (env : Env) (opts : ProcessingOptions) :
    ∀ (files : List String) (acc : BatchAcc),
      ((files.foldl (processFile env opts) acc).successCount
          + (files.foldl (processFile env opts) acc).failureCount
        = acc.successCount + acc.failureCount + files.length)
      ∧ ((files.foldl (processFile env opts) acc).results.length + acc.successCount
        = (files.foldl (processFile env opts) acc).successCount + acc.results.length)
      ∧ ((files.foldl (processFile env opts) acc).errors.length + acc.failureCount
        = (files.foldl (processFile env opts) acc).failureCount + acc.errors.length)
  | [], acc => by simp [Nat.add_comm]
  | f :: rest, acc => by
    have hstep := processFile_step_shape env opts acc f
    have ih := foldl_batch_invariant env opts rest (processFile env opts acc f)
    simp only [List.foldl_cons, List.length_cons]
    obtain ⟨i1, i2, i3⟩ := ih
    rcases hstep with ⟨h1, h2, h3, h4⟩ | ⟨h1, h2, h3, h4⟩ <;>
      exact ⟨by omega, by omega, by omega⟩

/-- C1: for every environment, state, input list and options value
(including options requesting neither compress nor resize), the
`BatchResult` of `processBatch` satisfies
`successCount + failureCount = totalFiles` and `totalFiles` is the length
of the input list. -/
theorem processBatch_counts (env : Env) (st : PState) (filePaths : List String)
    (opts : ProcessingOptions) :
    (processBatch env st filePaths opts).1.successCount
        + (processBatch env st filePaths opts).1.failureCount
      = (processBatch env st filePaths opts).1.totalFiles
    ∧ (processBatch env st filePaths opts).1.totalFiles = filePaths.length := by
  have h := (foldl_batch_invariant env opts filePaths (batchInit st)).1
  unfold processBatch
  dsimp only
  refine ⟨?_, rfl⟩
  simpa [batchInit] using h
theorem string_eq_of_data {a b : String} (h : a.data = b.data) : a = b := by
  cases a
  cases b
  cases h
  rfl

theorem unsupportedMsg_ne_empty (mid : String) :
    ("Unsupported file type" ++ mid ++ ". Only images, videos, and PDFs are supported.")
      ≠ "" := by
  intro he
  have hlen := congrArg (fun s => s.data.length) he
  simp only [string_data_append, List.length_append, List.length_cons,
    List.length_nil] at hlen
  omega

/-- C6: the batch loop always completes with every file accounted for —
one `results` entry per success and one `errors` entry per failure, the
two lists' lengths summing to the number of input files — and per-file
problems become failure entries instead of escaping: an unsupported MIME
type is recorded with a message naming the detected MIME, an undetermined
type with the unknown-type message, a sniffing exception with its message,
and a placement (rename) exception with its message, after which
iteration continues. -/
theorem processBatch_total_and_failures :
    (∀ env st files opts,
      (processBatch env st files opts).1.results.length
          = (processBatch env st files opts).1.successCount
        ∧ (processBatch env st files opts).1.errors.length
          = (processBatch env st files opts).1.failureCount
        ∧ (processBatch env st files opts).1.results.length
            + (processBatch env st files opts).1.errors.length = files.length)
  ∧ (∀ env opts acc p m, env.sniff p = .mime m →
      strStarts "image/" m = false → strStarts "video/" m = false →
      m ≠ "application/pdf" → m ≠ "" →
      processFile env opts acc p
        = recordFailure acc acc.st (pathFileName p)
            ("Unsupported file type" ++ (": " ++ m)
              ++ ". Only images, videos, and PDFs are supported."))
  ∧ (∀ env opts acc p, env.sniff p = .undet →
      processFile env opts acc p
        = recordFailure acc acc.st (pathFileName p) "Could not determine file type")
  ∧ (∀ env opts acc p msg, env.sniff p = .throws msg →
      processFile env opts acc p = recordFailure acc acc.st (pathFileName p) msg)
  ∧ (∀ env opts acc p r st' o f m, env.sniff p = .mime m →
      routeFileCompression env acc.st p opts (jsOrStr env.pdfQuality "medium") = (r, st') →
      r.success = true → r.outputPath = some o →
      env.outputFolderName.map strTrim = some f → f ≠ "" →
      pathJoin (pathJoin (pathDirname p) f) (pathFileName o) ≠ o →
      ((if st'.fs.existsSync (pathJoin (pathDirname p) f) = true then st'.fs
        else st'.fs.mkdirSync (pathJoin (pathDirname p) f)).statSize o).isSome = true →
      env.renameOk o (pathJoin (pathJoin (pathDirname p) f) (pathFileName o)) = false →
      processFile env opts acc p
        = recordFailure acc
            { st' with
              fs := (if st'.fs.existsSync (pathJoin (pathDirname p) f) = true then st'.fs
                     else st'.fs.mkdirSync (pathJoin (pathDirname p) f)) }
            (pathFileName p) env.renameErrMsg) := by
  refine ⟨?_, ?_, ?_, ?_, ?_⟩
  · intro env st files opts
    obtain ⟨i1, i2, i3⟩ := foldl_batch_invariant env opts files (batchInit st)
    unfold processBatch
    dsimp only
    simp only [batchInit, List.length_nil] at i1 i2 i3 ⊢
    refine ⟨by omega, by omega, by omega⟩
  · intro env opts acc p m hsniff himg hvid hpdf hm0
    unfold processFile routeFileCompression detectFileCategory
    rw [hsniff]
    dsimp only
    simp only [himg, hvid, Bool.false_eq_true, if_false, if_neg hpdf]
    rw [if_neg hm0]
    unfold jsOrStr
    dsimp only
    rw [if_neg (unsupportedMsg_ne_empty (": " ++ m))]
  · intro env opts acc p hsniff
    unfold processFile
    rw [hsniff]
  · intro env opts acc p msg hsniff
    unfold processFile
    rw [hsniff]
  · intro env opts acc p r st' o f m hsniff hroute hsucc hout hfold hf hne hsome hrok
    unfold processFile
    rw [hsniff]
    dsimp only
    rw [hroute]
    dsimp only
    rw [hsucc, hout]
    dsimp only
    rw [hfold]
    dsimp only
    rw [if_pos hf, if_pos hne, if_pos hsome, hrok]
    simp only [Bool.false_eq_true, if_false]
/-- Environment whose sniffer reports an unsupported MIME type. -/
def envC6u : Env := { envW with sniff := fun _ => .mime "text/plain" }

/-- Environment with a configured output folder whose renames always fail
at the OS level. -/
def envC6e : Env :=
  { envC3 with outputFolderName := some "optimized", renameOk := fun _ _ => false }

def accW : BatchAcc := batchInit stC3

theorem processBatch_total_and_failures_witness :
    processFile envC6u { compress := true } accW "/d/notes.txt"
        = recordFailure accW accW.st (pathFileName "/d/notes.txt")
            ("Unsupported file type" ++ (": " ++ "text/plain")
              ++ ". Only images, videos, and PDFs are supported.")
    ∧ processFile envW { compress := true } accW "/d/mystery.bin"
        = recordFailure accW accW.st (pathFileName "/d/mystery.bin")
            "Could not determine file type"
    ∧ (processFile envC6e { compress := false } accW "/d/doc.pdf").failureCount = 1
    ∧ (processFile envC6e { compress := false } accW "/d/doc.pdf").errors
        = [("doc.pdf", envC6e.renameErrMsg)] := by
  refine ⟨?_, ?_, ?_, ?_⟩
  · exact processBatch_total_and_failures.2.1 envC6u { compress := true } accW
      "/d/notes.txt" "text/plain" rfl rfl rfl (by decide) (by decide)
  · exact processBatch_total_and_failures.2.2.1 envW { compress := true } accW
      "/d/mystery.bin" rfl
  · have h := processBatch_total_and_failures.2.2.2.2 envC6e { compress := false } accW
      "/d/doc.pdf"
      (routeFileCompression envC6e accW.st "/d/doc.pdf" { compress := false }
        (jsOrStr envC6e.pdfQuality "medium")).1
      (routeFileCompression envC6e accW.st "/d/doc.pdf" { compress := false }
        (jsOrStr envC6e.pdfQuality "medium")).2
      "/d/doc.min.pdf" "optimized" "application/pdf"
      rfl rfl (by decide) (by decide) (by decide) (by decide) (by decide) (by decide) rfl
    rw [h]
    rfl
  · have h := processBatch_total_and_failures.2.2.2.2 envC6e { compress := false } accW
      "/d/doc.pdf"
      (routeFileCompression envC6e accW.st "/d/doc.pdf" { compress := false }
        (jsOrStr envC6e.pdfQuality "medium")).1
      (routeFileCompression envC6e accW.st "/d/doc.pdf" { compress := false }
        (jsOrStr envC6e.pdfQuality "medium")).2
      "/d/doc.min.pdf" "optimized" "application/pdf"
      rfl rfl (by decide) (by decide) (by decide) (by decide) (by decide) (by decide) rfl
    rw [h]
    rfl
def stC4 : PState :=
  { fs := { files := [("/docs/report.pdf", 10)], dirs := [] }, gsCache := none,
    ffCache := none }

/-- C4: a file whose content sniff yields no match but whose extension is
`.pdf` is classified as PDF (mime `application/pdf`) by
`detectFileCategory` — yet `processBatch` never reaches that fallback: the
loop's own preliminary sniff records the file as a "Could not determine
file type" failure and moves on, so the batch pipeline does not process it
as a PDF. -/
theorem pdf_fallback_dead_in_batch :
    detectFileCategory envW "/docs/report.pdf" = (.pdf, some "application/pdf")
    ∧ (processBatch envW stC4 ["/docs/report.pdf"] { compress := true }).1
      = { totalFiles := 1, successCount := 0, failureCount := 1, totalOriginalSize := 0,
          totalProcessedSize := 0, results := [],
          errors := [("report.pdf", "Could not determine file type")] } := by
  refine ⟨by decide, by decide⟩

theorem string_append_empty (s : String) : s ++ "" = s := by
  apply string_eq_of_data
  rw [string_data_append]
  exact List.append_nil _

theorem string_append_assoc (a b c : String) : a ++ b ++ c = a ++ (b ++ c) := by
  apply string_eq_of_data
  simp only [string_data_append]
  exact List.append_assoc _ _ _

theorem logFloor1024Aux_spec :
    ∀ (fuel n i : Nat), n ≤ fuel → 1024 ^ i ≤ n → n < 1024 ^ (i + 1) →
      logFloor1024Aux fuel n = i
  | 0, n, i, hf, h1, h2 => by
    exfalso
    have hpos : 0 < 1024 ^ i := pow_pos (by omega) i
    omega
  | fuel + 1, n, i, hf, h1, h2 => by
    unfold logFloor1024Aux
    by_cases hn : n < 1024
    · rw [if_pos hn]
      cases i with
      | zero => rfl
      | succ j =>
        exfalso
        have hmono : (1024 : ℕ) ^ 1 ≤ 1024 ^ (j + 1) :=
          Nat.pow_le_pow_right (by omega) (by omega)
        rw [pow_one] at hmono
        omega
    · rw [if_neg hn]
      cases i with
      | zero =>
        exfalso
        rw [pow_one] at h2
        omega
      | succ j =>
        have hd1 : 1024 ^ j ≤ n / 1024 := by
          rw [Nat.le_div_iff_mul_le (by omega)]
          calc 1024 ^ j * 1024 = 1024 ^ (j + 1) := (pow_succ 1024 j).symm
          _ ≤ n := h1
        have hd2 : n / 1024 < 1024 ^ (j + 1) := by
          rw [Nat.div_lt_iff_lt_mul (by omega)]
          calc n < 1024 ^ (j + 1 + 1) := h2
          _ = 1024 ^ (j + 1) * 1024 := pow_succ 1024 (j + 1)
        have hdf : n / 1024 ≤ fuel := by
          have := Nat.div_lt_self (by omega : 0 < n) (by omega : 1 < 1024)
          omega
        rw [logFloor1024Aux_spec fuel (n / 1024) j hdf hd1 hd2]

theorem logFloor1024_spec (n i : Nat) (h1 : 1024 ^ i ≤ n) (h2 : n < 1024 ^ (i + 1)) :
    logFloor1024 n = i :=
  logFloor1024Aux_spec n n i le_rfl h1 h2

/-- Validation of the binary64 savings model: at totals 2000 → 1997 the
double-precision pipeline `(1 - 1997/2000) * 100` evaluates to
0.1499999999999946… (the rounded quotient lands just above 0.9985), so
`toFixed(1)` renders "0.1" — where exact rational arithmetic would give
0.15 and round to "0.2". -/
theorem flSavings_2000_1997 : toFixed1Fl (flSavingsValue 2000 1997) = "0.1" := by decide

/-- Validation: 1 − 1/3 doubles to 66.66666666666667 → "66.7". -/
theorem flSavings_3_1 : toFixed1Fl (flSavingsValue 3 1) = "66.7" := by decide

/-- Validation: a processed size above the original gives a negative
percentage, (1 − 3/1)·100 = −200 → "-200.0". -/
theorem flSavings_1_3 : toFixed1Fl (flSavingsValue 1 3) = "-200.0" := by decide

/-- Validation: 1 − 3/7 doubles to 57.14285714285714 → "57.1". -/
theorem flSavings_7_3 : toFixed1Fl (flSavingsValue 7 3) = "57.1" := by decide

/-- C9: `generateBatchSummary` is a pure function of the `BatchResult`:
with zero successes it is the failure message covering all `totalFiles`;
otherwise it is the success line, followed by the saved-bytes and
one-decimal percentage-reduction line exactly when both byte totals are
positive — the percentage being the IEEE-754 binary64 evaluation of
`(1 - totalProcessedSize / totalOriginalSize) * 100` rendered by
`toFixed(1)` — followed by the failure-count line exactly when
`failureCount > 0`; and `formatBytes` renders positive sizes with units
B/KB/MB/GB scaled by factors of 1024. -/
theorem generateBatchSummary_shape :
    (∀ r op, r.successCount = 0 →
      generateBatchSummary r op
        = "❌ Failed to " ++ strToLower op ++ " " ++ toString r.totalFiles ++ " file"
            ++ (if r.totalFiles > 1 then "s" else ""))
  ∧ (∀ r op, r.successCount ≠ 0 →
      generateBatchSummary r op
        = "✅ " ++ op ++ " " ++ toString r.successCount ++ " file"
            ++ (if r.successCount > 1 then "s" else "") ++ "!"
          ++ (if r.totalOriginalSize > 0 ∧ r.totalProcessedSize > 0 then
                "\nSaved "
                  ++ formatBytes ((r.totalOriginalSize : ℤ) - (r.totalProcessedSize : ℤ))
                  ++ " ("
                  ++ toFixed1Fl (flSavingsValue r.totalOriginalSize r.totalProcessedSize)
                  ++ "% reduction)"
              else "")
          ++ (if r.failureCount > 0 then
                "\n⚠️ " ++ toString r.failureCount ++ " file"
                  ++ (if r.failureCount > 1 then "s" else "") ++ " failed"
              else ""))
  ∧ (∀ z : ℤ,
      (0 < z → z < 1024 → formatBytes z = toFixed1Q z 1 ++ " B")
      ∧ (1024 ≤ z → z < 1048576 → formatBytes z = toFixed1Q z 1024 ++ " KB")
      ∧ (1048576 ≤ z → z < 1073741824 → formatBytes z = toFixed1Q z 1048576 ++ " MB")
      ∧ (1073741824 ≤ z → z < 1099511627776 →
          formatBytes z = toFixed1Q z 1073741824 ++ " GB")) := by
  refine ⟨?_, ?_, ?_⟩
  · intro r op h
    unfold generateBatchSummary
    rw [if_pos h]
  · intro r op h
    unfold generateBatchSummary
    rw [if_neg h]
    dsimp only
    by_cases h1 : r.totalOriginalSize > 0 ∧ r.totalProcessedSize > 0
    · simp only [if_pos h1, if_pos h1.1]
      by_cases h2 : r.failureCount > 0
      · simp only [if_pos h2, string_append_assoc]
      · simp only [if_neg h2, string_append_assoc, string_append_empty]
    · simp only [if_neg h1]
      by_cases h2 : r.failureCount > 0
      · simp only [if_pos h2, string_append_assoc, string_append_empty]
      · simp only [if_neg h2, string_append_assoc, string_append_empty]
  · intro z
    refine ⟨?_, ?_, ?_, ?_⟩
    · intro hlo hhi
      unfold formatBytes
      rw [if_neg (by omega : ¬ z = 0), if_neg (by omega : ¬ z < 0)]
      dsimp only
      have hl : logFloor1024 z.toNat = 0 :=
        logFloor1024_spec _ 0 (by simp; omega) (by simp [pow_succ]; omega)
      rw [hl]
      rw [show ((1024 : ℕ) ^ 0) = 1 from by norm_num]
      rw [show byteUnits.getD 0 "undefined" = "B" from rfl]
      rw [string_append_assoc]
      rw [show ((" " ++ "B" : String)) = " B" from by decide]
    · intro hlo hhi
      unfold formatBytes
      rw [if_neg (by omega : ¬ z = 0), if_neg (by omega : ¬ z < 0)]
      dsimp only
      have hl : logFloor1024 z.toNat = 1 := by
        apply logFloor1024_spec
        · rw [pow_one]
          omega
        · norm_num
          omega
      rw [hl]
      rw [show ((1024 : ℕ) ^ 1) = 1024 from by norm_num]
      rw [show byteUnits.getD 1 "undefined" = "KB" from rfl]
      rw [string_append_assoc]
      rw [show ((" " ++ "KB" : String)) = " KB" from by decide]
    · intro hlo hhi
      unfold formatBytes
      rw [if_neg (by omega : ¬ z = 0), if_neg (by omega : ¬ z < 0)]
      dsimp only
      have hl : logFloor1024 z.toNat = 2 := by
        apply logFloor1024_spec
        · norm_num
          omega
        · norm_num
          omega
      rw [hl]
      rw [show ((1024 : ℕ) ^ 2) = 1048576 from by norm_num]
      rw [show byteUnits.getD 2 "undefined" = "MB" from rfl]
      rw [string_append_assoc]
      rw [show ((" " ++ "MB" : String)) = " MB" from by decide]
    · intro hlo hhi
      unfold formatBytes
      rw [if_neg (by omega : ¬ z = 0), if_neg (by omega : ¬ z < 0)]
      dsimp only
      have hl : logFloor1024 z.toNat = 3 := by
        apply logFloor1024_spec
        · norm_num
          omega
        · norm_num
          omega
      rw [hl]
      rw [show ((1024 : ℕ) ^ 3) = 1073741824 from by norm_num]
      rw [show byteUnits.getD 3 "undefined" = "GB" from rfl]
      rw [string_append_assoc]
      rw [show ((" " ++ "GB" : String)) = " GB" from by decide]

theorem generateBatchSummary_shape_witness :
    generateBatchSummary
        { totalFiles := 2, successCount := 0, failureCount := 2, totalOriginalSize := 0,
          totalProcessedSize := 0, results := [], errors := [] } "Compress"
      = "❌ Failed to compress 2 files"
    ∧ generateBatchSummary
        { totalFiles := 3, successCount := 2, failureCount := 1, totalOriginalSize := 2048,
          totalProcessedSize := 1024, results := [], errors := [] } "Optimized"
      = "✅ Optimized 2 files!\nSaved 1.0 KB (50.0% reduction)\n⚠️ 1 file failed"
    ∧ formatBytes 1024 = "1.0 KB" := by
  refine ⟨?_, ?_, ?_⟩
  · rw [generateBatchSummary_shape.1 _ "Compress" rfl]
    decide
  · rw [generateBatchSummary_shape.2.1 _ "Optimized" (by decide)]
    decide
  · rw [(generateBatchSummary_shape.2.2 1024).2.1 (by decide) (by decide)]
    decide
theorem FS.statSize_ite_mkdir (fs : FS) (c : Prop) [Decidable c] (t q : String) :
    (if c then fs else fs.mkdirSync t).statSize q = fs.statSize q := by
  split <;> rfl

/-- Full characterisation of `compressPDF` when the size guard fires. -/
theorem compressPDF_size_guard_full {env : Env} {st : PState} {p q : String} {o n : Nat}
    {stderr : String}
    (hstat : st.fs.statSize p = some o)
    (hrun : env.run (getGhostscriptPath env st.fs st.gsCache).1
        (gsArgs (getGhostscriptSettings q) (compressPDFOutputPath p) p) st.fs
      = .ran (some n) stderr)
    (hge : o ≤ n) :
    compressPDF env st p q
      = ({ success := true, outputPath := some p, originalSize := some o,
           compressedSize := some o },
         { fs := (st.fs.insertFile (compressPDFOutputPath p) n).unlinkSync
             (compressPDFOutputPath p),
           gsCache := (getGhostscriptPath env st.fs st.gsCache).2,
           ffCache := st.ffCache }) := by
  unfold compressPDF
  rw [hstat]
  dsimp only
  rw [hrun]
  dsimp only
  rw [FS.statSize_insertFile_self]
  dsimp only
  rw [if_pos (show n ≥ o from hge)]

/-- Size-guard behaviour as seen through the router: the result is a
successful `ProcessingResult` whose output path is the original input. -/
theorem route_pdf_size_guard {env : Env} {st : PState} {p : String}
    {opts : ProcessingOptions} {pq : String} {o n : Nat} {stderr : String}
    (hsniff : env.sniff p = .mime "application/pdf")
    (hstat : st.fs.statSize p = some o)
    (hrun : env.run (getGhostscriptPath env st.fs st.gsCache).1
        (gsArgs (getGhostscriptSettings pq) (compressPDFOutputPath p) p) st.fs
      = .ran (some n) stderr)
    (hge : o ≤ n) :
    routeFileCompression env st p opts pq
      = ({ success := true, outputPath := some p, originalSize := some o,
           processedSize := some o, fileName := some (pathFileName p),
           fileType := some "pdf" },
         { fs := (st.fs.insertFile (compressPDFOutputPath p) n).unlinkSync
             (compressPDFOutputPath p),
           gsCache := (getGhostscriptPath env st.fs st.gsCache).2,
           ffCache := st.ffCache }) := by
  unfold routeFileCompression detectFileCategory processPDF
  rw [hsniff]
  dsimp only
  rw [show strStarts "image/" "application/pdf" = false from rfl,
    show strStarts "video/" "application/pdf" = false from rfl]
  simp only [Bool.false_eq_true, if_false, eq_self_iff_true, if_true]
  rw [compressPDF_size_guard_full hstat hrun hge]

theorem join_subfolder_ne {d f name : List Char} (hd1 : d ≠ []) (hd2 : d ≠ ['.']) :
    joinCl (joinCl d f) name ≠ d ++ '/' :: name := by
  intro h
  have hin : joinCl d f = d ++ '/' :: f := by
    rw [joinCl, if_neg hd1, if_neg hd2]
  rw [hin] at h
  have hne1 : d ++ '/' :: f ≠ [] := by simp
  have hne2 : d ++ '/' :: f ≠ ['.'] := by
    intro he
    have hlen := congrArg List.length he
    have hdpos : 0 < d.length := List.length_pos.mpr hd1
    simp at hlen
    omega
  rw [joinCl, if_neg hne1, if_neg hne2, List.append_assoc] at h
  have h2 := List.append_cancel_left h
  have h3 : f ++ '/' :: name = name := by
    injection h2
  have hlen := congrArg List.length h3
  simp at hlen
  omega

/-- C10: when the PDF size guard fires in a batch with an output folder
configured, `processBatch` renames the original input PDF itself into
`<sourceDir>/<folderName>/`: after the batch the source file no longer
exists at its original path, its entry lives at the folder path instead,
and the file counts as a success. -/
theorem sizeGuard_batch_moves_original :
    ∀ (env : Env) (st : PState) (d name f p : String) (o n : Nat) (stderr : String)
      (opts : ProcessingOptions),
      p.data = d.data ++ '/' :: name.data →
      d.data ≠ [] → d.data ≠ ['.'] → '/' ∉ name.data →
      env.sniff p = .mime "application/pdf" →
      env.outputFolderName.map strTrim = some f → f ≠ "" →
      st.fs.statSize p = some o →
      env.run (getGhostscriptPath env st.fs st.gsCache).1
          (gsArgs (getGhostscriptSettings (jsOrStr env.pdfQuality "medium"))
            (compressPDFOutputPath p) p) st.fs
        = .ran (some n) stderr →
      o ≤ n →
      env.renameOk p (pathJoin (pathJoin (pathDirname p) f) (pathFileName p)) = true →
      (processBatch env st [p] opts).2.fs.statSize p = none
      ∧ (processBatch env st [p] opts).2.fs.statSize
            (pathJoin (pathJoin (pathDirname p) f) (pathFileName p)) = some o
      ∧ (processBatch env st [p] opts).1.successCount = 1 := by
  intro env st d name f p o n stderr opts hpd hd1 hd2 hns hsniff hfold hf hstat hrun hge hrok
  have hdir : pathDirname p = d :=
    string_eq_of_data (by rw [show (pathDirname p).data = dirNameCl p.data from rfl, hpd]
                          exact dirNameCl_append_slash hns hd1)
  have hfile : pathFileName p = name :=
    string_eq_of_data (by rw [show (pathFileName p).data = fileNameCl p.data from rfl, hpd]
                          exact fileNameCl_append_slash hns)
  have hout_ne : compressPDFOutputPath p ≠ p :=
    minOut_ne p ".min.pdf" ("min.pdf").data rfl (by decide) (by decide)
  have hnp_ne : pathJoin (pathJoin (pathDirname p) f) (pathFileName p) ≠ p := by
    rw [hdir, hfile]
    intro he
    have hed := congrArg String.data he
    rw [hpd] at hed
    exact join_subfolder_ne hd1 hd2 hed
  unfold processBatch
  simp only [List.foldl_cons, List.foldl_nil]
  unfold processFile
  rw [hsniff]
  dsimp only
  simp only [batchInit]
  rw [route_pdf_size_guard hsniff hstat hrun hge]
  dsimp only
  rw [hfold]
  dsimp only
  rw [if_pos hf]
  rw [if_pos hnp_ne]
  rw [FS.statSize_ite_mkdir, FS.statSize_unlinkSync_ne _ (Ne.symm hout_ne),
    FS.statSize_insertFile_ne _ _ (Ne.symm hout_ne), hstat]
  simp only [Option.isSome_some, eq_self_iff_true, if_true, hrok]
  unfold FS.renameFile
  rw [FS.statSize_ite_mkdir, FS.statSize_unlinkSync_ne _ (Ne.symm hout_ne),
    FS.statSize_insertFile_ne _ _ (Ne.symm hout_ne), hstat]
  dsimp only [recordSuccess]
  refine ⟨?_, ?_, rfl⟩
  · rw [FS.statSize_insertFile_ne _ _ (Ne.symm hnp_ne)]
    exact FS.statSize_unlinkSync_self _ _
  · exact FS.statSize_insertFile_self _ _ _
/-- Environment with an inconclusive-compression Ghostscript (output no
smaller than the input) and a configured output folder. -/
def envC10 : Env :=
  { envW with
    sniff := fun _ => .mime "application/pdf",
    run := fun _ _ _ => .ran (some 100) "",
    outputFolderName := some "optimized" }

def stC10 : PState :=
  { fs := { files := [("/d/doc.pdf", 100)], dirs := [] }, gsCache := none, ffCache := none }

theorem sizeGuard_batch_moves_original_witness :
    (processBatch envC10 stC10 ["/d/doc.pdf"] { compress := true }).2.fs.statSize "/d/doc.pdf"
        = none
    ∧ (processBatch envC10 stC10 ["/d/doc.pdf"] { compress := true }).2.fs.statSize
          (pathJoin (pathJoin (pathDirname "/d/doc.pdf") "optimized")
            (pathFileName "/d/doc.pdf")) = some 100
    ∧ (processBatch envC10 stC10 ["/d/doc.pdf"] { compress := true }).1.successCount = 1 :=
  sizeGuard_batch_moves_original envC10 stC10 "/d" "doc.pdf" "optimized" "/d/doc.pdf" 100 100
    "" { compress := true } (by decide) (by decide) (by decide) (by decide) rfl (by decide)
    (by decide) (by decide) rfl (by decide) rfl
